import Mathlib

/-!
Verification development for the screen-to-box assignment system.

The definitions below are a shallow embedding of the Python sources:
`services/box_service/box_service.py`, `services/screen_service/screen_service.py`,
`services/cisco_worker/cisco_worker.py`, and the coordinator routes in `app.py`.

TinyDB semantics used throughout: `search` returns all matching records in
storage order (so `result[0]` is the first match), `update` mutates every
matching record in place, `insert` appends, `remove` deletes all matches and
returns the list of removed ids.
-/

namespace S2B

/-- Python's `needle in hay` substring containment on strings. -/
def strContains (hay needle : String) : Bool :=
  decide (needle.data <:+: hay.data)

/-- Python's `str.lower()` restricted to what the sources compare (ASCII). -/
def lowerStr (s : String) : String :=
  ⟨s.data.map Char.toLower⟩

/-- A record of the `boxes` table (see `BoxService.create_box`). -/
structure Box where
  box_id : Nat
  box_number : String
  port_number : String
  vlan_number : Option String
  user_id : Option String
deriving Repr, DecidableEq

/-- A record of the `screens` table (see `ScreenService.create_screen`). -/
structure Screen where
  screen_id : Nat
  screen_number : Option String
  port_number : String
  vlan_number : Option String
  box_id : Option Nat
deriving Repr, DecidableEq

/-- Python truthiness of an `Optional[str]` value: `None` and `""` are falsy. -/
def truthy : Option String → Bool
  | none => false
  | some s => !(s == "")

/-- `x or d` on an `Optional[str]` with a string default (Python truthiness). -/
def orDefault (x : Option String) (d : String) : String :=
  match x with
  | none => d
  | some s => if s == "" then d else s

/-! ### BoxService -/

/-- `BoxService.get_box_by_id`: first record whose `box_id` matches. -/
def getBoxById (bid : Nat) (bs : List Box) : Option Box :=
  (bs.filter (fun b => b.box_id == bid)).head?

/-- `BoxService.get_box_by_user_id`: first record whose `user_id` matches. -/
def getBoxByUserId (u : String) (bs : List Box) : Option Box :=
  (bs.filter (fun b => b.user_id == some u)).head?

/-- `BoxService.get_free_boxes`: all records with `user_id = None`. -/
def getFreeBoxes (bs : List Box) : List Box :=
  bs.filter (fun b => b.user_id == none)

/-- `BoxService._get_next_box_id`: max existing id + 1 (1 when empty). -/
def nextBoxId (bs : List Box) : Nat :=
  match bs with
  | [] => 1
  | _ => (bs.foldl (fun m b => max m b.box_id) 0) + 1

/-- `BoxService.create_box`: insert a fresh record with `user_id = None`. -/
def createBox (portNumber boxNumber : String) (vlan : Option String)
    (bs : List Box) : Box × List Box :=
  let b : Box := { box_id := nextBoxId bs, box_number := boxNumber,
                   port_number := portNumber, vlan_number := vlan, user_id := none }
  (b, bs ++ [b])

/-- `BoxService.delete_box`: remove every record with this id; report whether any
matched.  Note: the screens table is not touched. -/
def deleteBox (bid : Nat) (bs : List Box) : Bool × List Box :=
  (bs.any (fun b => b.box_id == bid), bs.filter (fun b => !(b.box_id == bid)))

/-- `BoxService.assign_user_to_box`: `None` when the box is missing or already
has any owning user (even the same one); otherwise set `user_id` on every
record with this id and return the fetched box with `user_id` set. -/
def assignUserToBox (u : String) (bid : Nat) (bs : List Box) :
    Option Box × List Box :=
  match getBoxById bid bs with
  | none => (none, bs)
  | some b =>
    if b.user_id ≠ none then (none, bs)
    else (some { b with user_id := some u },
      bs.map (fun c => if c.box_id == bid then { c with user_id := some u } else c))

/-- `BoxService.assign_user_to_any_free_box`: first free box in storage order. -/
def assignUserToAnyFreeBox (u : String) (bs : List Box) :
    Option Box × List Box :=
  match (getFreeBoxes bs).head? with
  | none => (none, bs)
  | some b =>
    (some { b with user_id := some u },
      bs.map (fun c => if c.box_id == b.box_id then { c with user_id := some u } else c))

/-- `BoxService.unassign_user_from_box`: clear `user_id` on every record owned
by this user; `false` when the user owns none. -/
def unassignUserFromBox (u : String) (bs : List Box) : Bool × List Box :=
  if bs.any (fun b => b.user_id == some u) then
    (true, bs.map (fun b => if b.user_id == some u then { b with user_id := none } else b))
  else (false, bs)

/-- `BoxService.unassign_box`: `None` if missing, `false` if already free,
else clear the owner. -/
def unassignBox (bid : Nat) (bs : List Box) : Option Bool × List Box :=
  match getBoxById bid bs with
  | none => (none, bs)
  | some b =>
    if b.user_id = none then (some false, bs)
    else (some true,
      bs.map (fun c => if c.box_id == bid then { c with user_id := none } else c))

/-- `BoxService.unassign_user_if_exists`: unconditional defensive update. -/
def unassignUserIfExists (u : String) (bs : List Box) : List Box :=
  bs.map (fun b => if b.user_id == some u then { b with user_id := none } else b)

/-- `BoxService.update_box`: merge only the provided fields into every record
with this id; return the (re-fetched) box, or the original when no field was
given, or `None` when missing. -/
def updateBox (bid : Nat) (bn pn vn : Option String) (bs : List Box) :
    Option Box × List Box :=
  match getBoxById bid bs with
  | none => (none, bs)
  | some b =>
    if bn = none ∧ pn = none ∧ vn = none then (some b, bs)
    else
      let f : Box → Box := fun c =>
        { c with box_number := bn.getD c.box_number,
                 port_number := pn.getD c.port_number,
                 vlan_number := match vn with | some v => some v | none => c.vlan_number }
      let bs' := bs.map (fun c => if c.box_id == bid then f c else c)
      (getBoxById bid bs', bs')

/-! ### ScreenService -/

/-- `ScreenService.get_screen_by_id`. -/
def getScreenById (sid : Nat) (ss : List Screen) : Option Screen :=
  (ss.filter (fun s => s.screen_id == sid)).head?

/-- `ScreenService.get_screen_by_box_id`. -/
def getScreenByBoxId (bid : Nat) (ss : List Screen) : Option Screen :=
  (ss.filter (fun s => s.box_id == some bid)).head?

/-- `ScreenService._get_next_screen_id`. -/
def nextScreenId (ss : List Screen) : Nat :=
  match ss with
  | [] => 1
  | _ => (ss.foldl (fun m s => max m s.screen_id) 0) + 1

/-- `ScreenService.create_screen`. -/
def createScreen (portNumber : String) (vlan sn : Option String)
    (ss : List Screen) : Screen × List Screen :=
  let s : Screen := { screen_id := nextScreenId ss, screen_number := sn,
                      port_number := portNumber, vlan_number := vlan, box_id := none }
  (s, ss ++ [s])

/-- `ScreenService.delete_screen`: remove only; the boxes table is untouched. -/
def deleteScreen (sid : Nat) (ss : List Screen) : Bool × List Screen :=
  (ss.any (fun s => s.screen_id == sid), ss.filter (fun s => !(s.screen_id == sid)))

/-- `ScreenService.assign_box_to_screen`: idempotent success when already
paired to this very box; `None` when the screen is missing, already paired to
another box, or the box is paired to another screen; else record the pairing. -/
def assignBoxToScreen (bid sid : Nat) (ss : List Screen) :
    Option Screen × List Screen :=
  match getScreenById sid ss with
  | none => (none, ss)
  | some s =>
    if s.box_id == some bid ∧ s.screen_id == sid then (some s, ss)
    else if s.box_id ≠ none then (none, ss)
    else if (getScreenByBoxId bid ss).isSome then (none, ss)
    else (some { s with box_id := some bid },
      ss.map (fun c => if c.screen_id == sid then { c with box_id := some bid } else c))

/-- `ScreenService.unassign_box_from_screen`. -/
def unassignBoxFromScreen (bid : Nat) (ss : List Screen) : Bool × List Screen :=
  if ss.any (fun s => s.box_id == some bid) then
    (true, ss.map (fun s => if s.box_id == some bid then { s with box_id := none } else s))
  else (false, ss)

/-- `ScreenService.unassign_screen`. -/
def unassignScreen (sid : Nat) (ss : List Screen) : Option Bool × List Screen :=
  match getScreenById sid ss with
  | none => (none, ss)
  | some s =>
    if s.box_id = none then (some false, ss)
    else (some true,
      ss.map (fun c => if c.screen_id == sid then { c with box_id := none } else c))

/-- `ScreenService.update_screen`. -/
def updateScreen (sid : Nat) (sn pn vn : Option String) (ss : List Screen) :
    Option Screen × List Screen :=
  match getScreenById sid ss with
  | none => (none, ss)
  | some s =>
    if sn = none ∧ pn = none ∧ vn = none then (some s, ss)
    else
      let f : Screen → Screen := fun c =>
        { c with screen_number := match sn with | some v => some v | none => c.screen_number,
                 port_number := pn.getD c.port_number,
                 vlan_number := match vn with | some v => some v | none => c.vlan_number }
      let ss' := ss.map (fun c => if c.screen_id == sid then f c else c)
      (getScreenById sid ss', ss')

/-! ### Coordinator routes (`app.py`)

The southbound switch is modelled as an environment: whether the serial
connection object exists and is open, whether connect/enable would succeed,
the two default VLAN constants, and the outcome the switch would give each
`assign_port_to_vlan(port, vlan)` call.  The routes ignore those outcomes
except for logging, so they are recorded in the call trace. -/

structure SwitchEnv where
  connOpen : Bool
  connectOk : Bool
  enableOk : Bool
  defBoxVlan : String
  defScreenVlan : String
  assignOk : String → String → Bool

/-- One `assign_port_to_vlan` call issued to the switch: port, VLAN, outcome. -/
abbrev SwitchCall := String × String × Bool

/-- Projection of a trace to the (port, vlan) arguments issued. -/
def callsOf (tr : List SwitchCall) : List (String × String) :=
  tr.map (fun e => (e.1, e.2.1))

/-- Outcome of the `POST /boxes/assign` route. -/
inductive AssignBoxResult where
  | ok (b : Box)
  | notFound
  | alreadyAssigned
deriving Repr, DecidableEq

/-- `app.assign_box` (with a `box_id` in the body): defensive
`unassign_user_if_exists` first, then `assign_user_to_box`; on failure the
route distinguishes not-found from already-assigned via `get_box_by_id`. -/
def appAssignBox (u : String) (bid : Nat) (bs : List Box) :
    AssignBoxResult × List Box :=
  let bs1 := unassignUserIfExists u bs
  match assignUserToBox u bid bs1 with
  | (some b, bs2) => (.ok b, bs2)
  | (none, bs2) =>
    if (getBoxById bid bs2).isSome then (.alreadyAssigned, bs2) else (.notFound, bs2)

/-- `app.assign_box` without a `box_id` / `app.assign_user_to_free_box`. -/
def appAssignFreeBox (u : String) (bs : List Box) : Option Box × List Box :=
  assignUserToAnyFreeBox u (unassignUserIfExists u bs)

/-- The box assign/unassign operations of the claim C1 vocabulary. -/
inductive BoxOp where
  | coordAssign (u : String) (bid : Nat)
  | coordAssignFree (u : String)
  | unassignByUser (u : String)
  | unassignByBox (bid : Nat)

/-- State effect of one coordinator-level box operation. -/
def applyBoxOp (op : BoxOp) (bs : List Box) : List Box :=
  match op with
  | .coordAssign u bid => (appAssignBox u bid bs).2
  | .coordAssignFree u => (appAssignFreeBox u bs).2
  | .unassignByUser u => (unassignUserFromBox u bs).2
  | .unassignByBox bid => (unassignBox bid bs).2

/-- Run a sequence of coordinator-level box operations. -/
def runBoxOps (ops : List BoxOp) (bs : List Box) : List Box :=
  match ops with
  | [] => bs
  | op :: rest => runBoxOps rest (applyBoxOp op bs)

/-- The two record collections the coordinator routes act on. -/
structure DB where
  boxes : List Box
  screens : List Screen
deriving Repr, DecidableEq

/-- `app.delete_box` route: only `BoxService.delete_box` is invoked. -/
def appDeleteBox (bid : Nat) (db : DB) : Bool × DB :=
  let (deleted, bs) := deleteBox bid db.boxes
  (deleted, { db with boxes := bs })

/-- `app.delete_screen` route: only `ScreenService.delete_screen` is invoked. -/
def appDeleteScreen (sid : Nat) (db : DB) : Bool × DB :=
  let (deleted, ss) := deleteScreen sid db.screens
  (deleted, { db with screens := ss })

/-- Every screen's `box_id` reference resolves to an existing box. -/
def screensConsistent (db : DB) : Bool :=
  db.screens.all (fun s =>
    match s.box_id with
    | none => true
    | some bid => db.boxes.any (fun b => b.box_id == bid))

/-- Outcome of the `POST /screens/assign_user` route. -/
inductive AUSResult where
  | screenNotFound
  | userNoBox
  | failed
  | ok (s : Screen)
deriving Repr, DecidableEq

/-- `app.assign_user_to_screen`, eviction of the screen's old box: when the
screen is paired to a different box, clear the pairing and (with an open
connection and a set port) reset the old box's port to its default VLAN. -/
def ausStep2 (env : SwitchEnv) (db : DB) (sid bid : Nat) (screen : Screen) :
    DB × List SwitchCall :=
  match screen.box_id with
  | some oldBid =>
    if oldBid ≠ bid then
      let screens1 := (unassignScreen sid db.screens).2
      let tr1 : List SwitchCall :=
        match getBoxById oldBid db.boxes with
        | some ob =>
          if !(ob.port_number == "") ∧ env.connOpen then
            let v := orDefault ob.vlan_number env.defBoxVlan
            [(ob.port_number, v, env.assignOk ob.port_number v)]
          else []
        | none => []
      ({ db with screens := screens1 }, tr1)
    else (db, [])
  | none => (db, [])

/-- `app.assign_user_to_screen`, eviction of the box's old screen: when the
box is paired to a different screen, clear the pairing, reset the old
screen's port to the disconnected VLAN, and reset the box's own port. -/
def ausStep3 (env : SwitchEnv) (db1 : DB) (sid bid : Nat) (box : Box) :
    DB × List SwitchCall :=
  match getScreenByBoxId bid db1.screens with
  | some es =>
    if es.screen_id ≠ sid then
      let screens2 := (unassignBoxFromScreen bid db1.screens).2
      let tr2 : List SwitchCall :=
        if !(es.port_number == "") ∧ env.connOpen then
          [(es.port_number, env.defScreenVlan,
            env.assignOk es.port_number env.defScreenVlan)]
        else []
      let tr3 : List SwitchCall :=
        if !(box.port_number == "") ∧ env.connOpen then
          let v := orDefault box.vlan_number env.defBoxVlan
          [(box.port_number, v, env.assignOk box.port_number v)]
        else []
      ({ db1 with screens := screens2 }, tr2 ++ tr3)
    else (db1, [])
  | none => (db1, [])

/-- `app.assign_user_to_screen`, final step: record the pairing in the store
and configure the returned screen's port to the box's VLAN. -/
def ausStep4 (env : SwitchEnv) (db2 : DB) (sid bid : Nat) (box : Box) :
    AUSResult × DB × List SwitchCall :=
  match assignBoxToScreen bid sid db2.screens with
  | (none, screens3) => (.failed, { db2 with screens := screens3 }, [])
  | (some s, screens3) =>
    let tr4 : List SwitchCall :=
      if !(s.port_number == "") ∧ truthy box.vlan_number ∧ env.connOpen then
        let v := box.vlan_number.getD ""
        [(s.port_number, v, env.assignOk s.port_number v)]
      else []
    (.ok s, { db2 with screens := screens3 }, tr4)

/-- `app.assign_user_to_screen`: evict the screen's old box (resetting its
port), evict the box's old screen (resetting both ports), record the pairing,
then configure the screen's port to the box's VLAN.  Switch calls happen only
while the connection is open and their outcomes are never acted upon. -/
def appAssignUserToScreen (env : SwitchEnv) (db : DB) (sid : Nat) (uid : String) :
    AUSResult × DB × List SwitchCall :=
  match getScreenById sid db.screens with
  | none => (.screenNotFound, db, [])
  | some screen =>
    match getBoxByUserId uid db.boxes with
    | none => (.userNoBox, db, [])
    | some box =>
      match ausStep2 env db sid box.box_id screen with
      | (db1, trA) =>
        match ausStep3 env db1 sid box.box_id box with
        | (db2, trB) =>
          match ausStep4 env db2 sid box.box_id box with
          | (r, db3, trC) => (r, db3, trA ++ trB ++ trC)

/-! ### `CiscoWorker.sync_with_db`

Modelled as in the source: bail out when neither an open connection nor a
successful connect is available, bail out when `enable_mode` fails, then walk
every screen (issuing a call only when both port and VLAN are truthy) and
afterwards every box (issuing a call whenever the port is truthy, with the
box's VLAN or the default), never stopping on a per-port failure. -/

def syncScreensLoop (env : SwitchEnv) : List Screen → List SwitchCall
  | [] => []
  | s :: rest =>
    let here :=
      if !(s.port_number == "") ∧ truthy s.vlan_number then
        let v := s.vlan_number.getD ""
        [(s.port_number, v, env.assignOk s.port_number v)]
      else []
    here ++ syncScreensLoop env rest

def syncBoxesLoop (env : SwitchEnv) : List Box → List SwitchCall
  | [] => []
  | b :: rest =>
    let here :=
      if !(b.port_number == "") then
        let v := orDefault b.vlan_number env.defBoxVlan
        [(b.port_number, v, env.assignOk b.port_number v)]
      else []
    here ++ syncBoxesLoop env rest

def syncWithDb (env : SwitchEnv) (db : DB) : Bool × List SwitchCall :=
  if !env.connOpen ∧ !env.connectOk then (false, [])
  else if !env.enableOk then (false, [])
  else (true, syncScreensLoop env db.screens ++ syncBoxesLoop env db.boxes)

/-! ### Command-level model of `CiscoWorker`

Each CLI command the worker writes to the serial line is one constructor;
its rendering is exactly the f-string the Python code sends. -/

inductive Cmd where
  | empty
  | enable
  | confTerm
  | endC
  | showVlanId (v : String)
  | vlanCreate (v : String) (name : Option String)
  | interfaceSel (p : String)
  | swModeAccess
  | swAccessVlan (v : String)
  | noShutdown
deriving Repr, DecidableEq

/-- The literal command text `send_command` writes (before `\r\n`). -/
def Cmd.render : Cmd → String
  | .empty => ""
  | .enable => "enable"
  | .confTerm => "configure terminal"
  | .endC => "end"
  | .showVlanId v => "show vlan id " ++ v
  | .vlanCreate v none => "vlan " ++ v
  | .vlanCreate v (some n) => "vlan " ++ v ++ "\nname " ++ n
  | .interfaceSel p => "interface " ++ p
  | .swModeAccess => "switchport mode access"
  | .swAccessVlan v => "switchport access vlan " ++ v
  | .noShutdown => "no shutdown"

/-- The device at the end of the serial line.  Responding with `none` models
`send_command` raising (the `ConnectionError` path: the command is not
written, so it is not recorded in the trace). -/
structure Dev (σ : Type) where
  respond : σ → Cmd → Option String × σ

/-- A worker step either raises carrying the device state and trace at the
raise point, or returns a value with the updated state and trace. -/
abbrev WRes (σ α : Type) := Except (σ × List Cmd) (α × σ × List Cmd)

/-- `CiscoWorker.send_command`. -/
def sendC (dev : Dev σ) (st : σ) (tr : List Cmd) (c : Cmd) : WRes σ String :=
  match dev.respond st c with
  | (none, st') => .error (st', tr)
  | (some r, st') => .ok (r, st', tr ++ [c])

/-- `CiscoWorker.enable_mode` with no enable password (as all callers use it):
a password prompt means failure; otherwise an empty probe must show `#`. -/
def enableMode (dev : Dev σ) (st : σ) (tr : List Cmd) : WRes σ Bool :=
  match sendC dev st tr .enable with
  | .error e => .error e
  | .ok (r, st, tr) =>
    if strContains r "Password:" ∨ strContains (lowerStr r) "password:" then
      .ok (false, st, tr)
    else
      match sendC dev st tr .empty with
      | .error e => .error e
      | .ok (r2, st, tr) => .ok (strContains r2 "#", st, tr)

/-- `CiscoWorker.configure_terminal`. -/
def configureTerminal (dev : Dev σ) (st : σ) (tr : List Cmd) : WRes σ Bool :=
  match sendC dev st tr .confTerm with
  | .error e => .error e
  | .ok (r, st, tr) =>
    .ok (strContains (lowerStr r) "config" ∨ strContains (lowerStr r) "(config)", st, tr)

/-- `CiscoWorker.exit_config_mode`: `end` then an empty command. -/
def exitConfigMode (dev : Dev σ) (st : σ) (tr : List Cmd) : WRes σ Unit :=
  match sendC dev st tr .endC with
  | .error e => .error e
  | .ok (_, st, tr) =>
    match sendC dev st tr .empty with
    | .error e => .error e
    | .ok (_, st, tr) => .ok ((), st, tr)

/-- The response classification inside `CiscoWorker.vlan_exists`: absent iff
the response contains `VLAN <id> not found` or `VLAN<id> not found`
(literally, case-sensitively). -/
def vlanRespAbsent (v resp : String) : Bool :=
  strContains resp ("VLAN " ++ v ++ " not found") ∨
    strContains resp ("VLAN" ++ v ++ " not found")

/-- `CiscoWorker.vlan_exists`. -/
def vlanExists (dev : Dev σ) (st : σ) (tr : List Cmd) (v : String) : WRes σ Bool :=
  match sendC dev st tr (.showVlanId v) with
  | .error e => .error e
  | .ok (r, st, tr) => .ok (!vlanRespAbsent v r, st, tr)

/-- The second probe of the shared preamble: an empty command, reporting
whether the prompt already shows `(config)`. -/
def configShownProbe (dev : Dev σ) (st : σ) (tr : List Cmd) :
    WRes σ (Option Bool) :=
  match sendC dev st tr .empty with
  | .error e => .error e
  | .ok (r2, st, tr) => .ok (some (strContains (lowerStr r2) "(config)"), st, tr)

/-- The shared preamble of `create_vlan` and `assign_port_to_vlan`: probe the
prompt, enter enable mode when `#` is missing (`none` result when that
fails), then probe again and report whether `(config)` is already shown. -/
def ensureConfigProbe (dev : Dev σ) (st : σ) (tr : List Cmd) :
    WRes σ (Option Bool) :=
  match sendC dev st tr .empty with
  | .error e => .error e
  | .ok (r, st, tr) =>
    if strContains r "#" then configShownProbe dev st tr
    else
      match enableMode dev st tr with
      | .error e => .error e
      | .ok (true, st, tr) => configShownProbe dev st tr
      | .ok (false, st, tr) => .ok (none, st, tr)

/-- The `create_vlan` tail when the device already showed `(config)`:
send the creation command, then verify via `vlan_exists`. -/
def createInConfig (dev : Dev σ) (st : σ) (tr : List Cmd) (v : String)
    (name : Option String) : WRes σ Bool :=
  match sendC dev st tr (.vlanCreate v name) with
  | .error e => .error e
  | .ok (_, st, tr) => vlanExists dev st tr v

/-- The `create_vlan` tail that enters config mode itself
(`was_in_config = True` in the source): enter, create, exit, verify. -/
def createEnterConfig (dev : Dev σ) (st : σ) (tr : List Cmd) (v : String)
    (name : Option String) : WRes σ Bool :=
  match configureTerminal dev st tr with
  | .error e => .error e
  | .ok (_, st, tr) =>
    match sendC dev st tr (.vlanCreate v name) with
    | .error e => .error e
    | .ok (_, st, tr) =>
      match exitConfigMode dev st tr with
      | .error e => .error e
      | .ok (_, st, tr) => vlanExists dev st tr v

/-- `CiscoWorker.create_vlan`.  The initial `vlan_exists` probe sits outside
the `try`, so an exception there propagates to the caller; inside the `try`,
an exception reaches the handler, which calls `exit_config_mode` (itself
unguarded) only when config mode had been entered here, and returns `False`. -/
def createVlan (dev : Dev σ) (st : σ) (tr : List Cmd) (v : String)
    (name : Option String) : WRes σ Bool :=
  match vlanExists dev st tr v with
  | .error e => .error e
  | .ok (true, st, tr) => .ok (true, st, tr)
  | .ok (false, st, tr) =>
    match ensureConfigProbe dev st tr with
    | .error (st, tr) => .ok (false, st, tr)        -- handler, config not entered
    | .ok (none, st, tr) => .ok (false, st, tr)     -- enable_mode failed
    | .ok (some true, st, tr) =>
      (match createInConfig dev st tr v name with
      | .error (st, tr) => .ok (false, st, tr)      -- handler, config not entered
      | .ok r => .ok r)
    | .ok (some false, st, tr) =>
      (match createEnterConfig dev st tr v name with
      | .error (st, tr) =>
        (match exitConfigMode dev st tr with   -- unguarded inside the handler
        | .error e => .error e
        | .ok (_, st, tr) => .ok (false, st, tr))
      | .ok r => .ok r)

/-- The `try` body of `CiscoWorker.assign_port_to_vlan`. -/
def assignTry (dev : Dev σ) (st : σ) (tr : List Cmd) (port v : String) :
    WRes σ Bool :=
  match createVlan dev st tr v none with
  | .error e => .error e
  | .ok (false, st, tr) => .ok (false, st, tr)      -- fail fast: VLAN unavailable
  | .ok (true, st, tr) =>
    match ensureConfigProbe dev st tr with
    | .error e => .error e
    | .ok (none, st, tr) => .ok (false, st, tr)     -- enable_mode failed
    | .ok (some inCfg, st, tr) =>
      match sendC dev st tr (.interfaceSel port) with
      | .error e => .error e
      | .ok (_, st, tr) =>
        match sendC dev st tr .swModeAccess with
        | .error e => .error e
        | .ok (_, st, tr) =>
          match sendC dev st tr (.swAccessVlan v) with
          | .error e => .error e
          | .ok (_, st, tr) =>
            match sendC dev st tr .noShutdown with
            | .error e => .error e
            | .ok (_, st, tr) =>
              if inCfg = false then                 -- config was entered here
                match exitConfigMode dev st tr with
                | .error e => .error e
                | .ok (_, st, tr) => .ok (true, st, tr)
              else
                match sendC dev st tr .endC with
                | .error e => .error e
                | .ok (_, st, tr) => .ok (true, st, tr)

/-- `CiscoWorker.assign_port_to_vlan`: the whole body is wrapped in a
`try/except` whose handler runs `exit_config_mode` inside its own swallowed
`try` and returns `False`; no exception ever escapes. -/
def assignPortToVlan (dev : Dev σ) (st : σ) (tr : List Cmd) (port v : String) :
    Bool × σ × List Cmd :=
  match assignTry dev st tr port v with
  | .ok r => r
  | .error (st, tr) =>
    match exitConfigMode dev st tr with
    | .error (st', tr') => (false, st', tr')
    | .ok (_, st', tr') => (false, st', tr')

/-- A scripted device: responds with the queued items in order, raising when a
queued item is `none` or the script is exhausted. -/
def scriptDev : Dev (List (Option String)) where
  respond st _ :=
    match st with
    | [] => (none, [])
    | r :: rest => (r, rest)

/-- CLI mode of the simulated switch. -/
inductive SimMode where
  | user
  | priv
  | config
deriving Repr, DecidableEq

/-- A simulated Cisco-style switch that echoes its configured state:
mode-dependent prompts, VLAN table lookups, and VLAN creation in config mode. -/
structure SimSw where
  vlans : List String
  mode : SimMode
deriving Repr, DecidableEq

def SimSw.prompt (d : SimSw) : String :=
  match d.mode with
  | .user => "Switch>"
  | .priv => "Switch#"
  | .config => "Switch(config)#"

def simRespond (d : SimSw) : Cmd → Option String × SimSw
  | .empty => (some d.prompt, d)
  | .enable => (some "Switch#", { d with mode := .priv })
  | .confTerm => (some "Switch(config)#", { d with mode := .config })
  | .endC => (some "Switch#", { d with mode := .priv })
  | .showVlanId v =>
    (some (if d.vlans.contains v then "VLAN Name Status active"
           else "VLAN " ++ v ++ " not found"), d)
  | .vlanCreate v _ =>
    if d.mode = .config then (some "Switch(config-vlan)#", { d with vlans := v :: d.vlans })
    else (some "% Invalid input detected", d)
  | .interfaceSel _ => (some "Switch(config-if)#", d)
  | .swModeAccess => (some "Switch(config-if)#", d)
  | .swAccessVlan _ => (some "Switch(config-if)#", d)
  | .noShutdown => (some "Switch(config-if)#", d)

def simDev : Dev SimSw where
  respond := simRespond

/-! ### Generic helper lemmas -/

theorem strContains_iff {hay needle : String} :
    strContains hay needle = true ↔ needle.data <:+: hay.data := by
  simp [strContains]

theorem head?_filter_eq_some {α : Type} {p : α → Bool} {l : List α} {a : α}
    (h : (l.filter p).head? = some a) :
    ∃ l1 l2, l = l1 ++ a :: l2 ∧ (∀ x ∈ l1, p x = false) ∧ p a = true := by
  induction l with
  | nil => simp at h
  | cons x t ih =>
    by_cases hx : p x = true
    · refine ⟨[], t, ?_, by simp, ?_⟩
      · simp only [List.filter_cons, hx, if_pos, List.head?_cons] at h
        simp [← Option.some_inj.mp h]
      · simp only [List.filter_cons, hx, if_pos, List.head?_cons] at h
        rw [← Option.some_inj.mp h]; exact hx
    · have hx' : p x = false := by simpa using hx
      simp only [List.filter_cons, hx', Bool.false_eq_true, if_neg, not_false_iff] at h
      obtain ⟨l1, l2, rfl, hl1, ha⟩ := ih h
      exact ⟨x :: l1, l2, rfl, by
        intro y hy
        rcases List.mem_cons.mp hy with rfl | hy
        · exact hx'
        · exact hl1 y hy, ha⟩

theorem mem_of_head?_filter {α : Type} {p : α → Bool} {l : List α} {a : α}
    (h : (l.filter p).head? = some a) : a ∈ l ∧ p a = true := by
  obtain ⟨l1, l2, rfl, _, ha⟩ := head?_filter_eq_some h
  exact ⟨by simp, ha⟩

theorem countP_or_le {α : Type} (p q : α → Bool) (l : List α) :
    l.countP (fun a => p a || q a) ≤ l.countP p + l.countP q := by
  induction l with
  | nil => simp
  | cons x t ih =>
    by_cases hp : p x = true <;> by_cases hq : q x = true <;>
      simp [List.countP_cons, hp, hq] <;> omega

theorem two_le_countP_of_mem {α : Type} {p : α → Bool} {l : List α} {x y : α}
    (hx : x ∈ l) (hy : y ∈ l) (hne : x ≠ y) (hpx : p x = true) (hpy : p y = true) :
    2 ≤ l.countP p := by
  induction l with
  | nil => simp at hx
  | cons a t ih =>
    rcases List.mem_cons.mp hx with rfl | hx'
    · have hy' : y ∈ t := by
        rcases List.mem_cons.mp hy with rfl | hy'
        · exact absurd rfl hne
        · exact hy'
      have h1 : 1 ≤ t.countP p := by
        rw [Nat.succ_le_iff]
        exact List.countP_pos_iff.mpr ⟨y, hy', hpy⟩
      simp only [List.countP_cons, hpx, if_pos]
      omega
    · rcases List.mem_cons.mp hy with rfl | hy'
      · have h1 : 1 ≤ t.countP p := by
          rw [Nat.succ_le_iff]
          exact List.countP_pos_iff.mpr ⟨x, hx', hpx⟩
        simp only [List.countP_cons, hpy, if_pos]
        omega
      · have := ih hx' hy'
        simp only [List.countP_cons]
        omega

theorem countP_beq_le_one_of_nodup {α β : Type} [BEq β] [LawfulBEq β]
    {f : α → β} {l : List α} (h : (l.map f).Nodup) (c : β) :
    l.countP (fun a => f a == c) ≤ 1 := by
  induction l with
  | nil => simp
  | cons x t ih =>
    simp only [List.map_cons, List.nodup_cons] at h
    by_cases hx : f x == c
    · have hc : f x = c := by simpa using hx
      have : t.countP (fun a => f a == c) = 0 := by
        rw [List.countP_eq_zero]
        intro a ha hpa
        have hfa : f a = c := by simpa using hpa
        exact h.1 (List.mem_map.mpr ⟨a, ha, hfa.trans hc.symm⟩)
      simp [List.countP_cons, hx, this]
    · have hx' : (f x == c) = false := by simpa using hx
      simp only [List.countP_cons, hx', Bool.false_eq_true, if_neg, not_false_iff,
        Nat.add_zero]
      exact ih h.2

theorem getBoxById_map {bid : Nat} {f : Box → Box} {bs : List Box}
    (hf : ∀ x, (f x).box_id = x.box_id) :
    getBoxById bid (bs.map f) = (getBoxById bid bs).map f := by
  unfold getBoxById
  rw [List.filter_map, List.head?_map]
  have he : bs.filter ((fun b => b.box_id == bid) ∘ f)
      = bs.filter (fun b => b.box_id == bid) :=
    List.filter_congr (fun x _ => by simp [Function.comp, hf])
  rw [he]

theorem getScreenById_map {sid : Nat} {f : Screen → Screen} {ss : List Screen}
    (hf : ∀ x, (f x).screen_id = x.screen_id) :
    getScreenById sid (ss.map f) = (getScreenById sid ss).map f := by
  unfold getScreenById
  rw [List.filter_map, List.head?_map]
  have he : ss.filter ((fun s => s.screen_id == sid) ∘ f)
      = ss.filter (fun s => s.screen_id == sid) :=
    List.filter_congr (fun x _ => by simp [Function.comp, hf])
  rw [he]

theorem getBoxById_eq_some {bid : Nat} {bs : List Box} {b : Box}
    (h : getBoxById bid bs = some b) : b ∈ bs ∧ b.box_id = bid := by
  have h' : (bs.filter (fun x => x.box_id == bid)).head? = some b := h
  have := mem_of_head?_filter h'
  exact ⟨this.1, by simpa using this.2⟩

theorem getScreenById_eq_some {sid : Nat} {ss : List Screen} {s : Screen}
    (h : getScreenById sid ss = some s) : s ∈ ss ∧ s.screen_id = sid := by
  have h' : (ss.filter (fun x => x.screen_id == sid)).head? = some s := h
  have := mem_of_head?_filter h'
  exact ⟨this.1, by simpa using this.2⟩

theorem getScreenByBoxId_eq_some {bid : Nat} {ss : List Screen} {s : Screen}
    (h : getScreenByBoxId bid ss = some s) : s ∈ ss ∧ s.box_id = some bid := by
  have h' : (ss.filter (fun x => x.box_id == some bid)).head? = some s := h
  have := mem_of_head?_filter h'
  exact ⟨this.1, by simpa using this.2⟩

/-- After the blanket clear of `box_id` on every screen referencing `bid`
(TinyDB updates all matches), no screen references `bid` any more. -/
theorem getScreenByBoxId_clear (bid : Nat) (ss : List Screen) :
    getScreenByBoxId bid
      (ss.map (fun s => if s.box_id == some bid then { s with box_id := none } else s))
      = none := by
  unfold getScreenByBoxId
  rw [List.filter_map]
  suffices h : (ss.filter ((fun s => s.box_id == some bid) ∘
      (fun s => if s.box_id == some bid then { s with box_id := none } else s))) = [] by
    rw [h]; rfl
  rw [List.filter_eq_nil_iff]
  intro x _
  by_cases hx : x.box_id = some bid <;> simp [Function.comp, hx]

/-! ### C2: deletion does not cascade (code bug demonstration) -/

/-- A box paired to a screen. -/
def c2box : Box :=
  { box_id := 5, box_number := "B5", port_number := "Gi1/0/5",
    vlan_number := none, user_id := none }

/-- The screen paired to `c2box`. -/
def c2screen : Screen :=
  { screen_id := 3, screen_number := none, port_number := "Gi1/0/13",
    vlan_number := none, box_id := some 5 }

def c2db : DB := { boxes := [c2box], screens := [c2screen] }

/-- C2: the claim says deleting a Box with an active pairing also clears the
paired Screen's `box_id`.  The code (`BoxService.delete_box`, reached
unmodified from the `DELETE /boxes/<id>` route) only removes the box row:
starting from a consistent state where screen 3 references box 5, deleting
box 5 reports success, leaves screen 3 still referencing box 5, and the
consistency predicate (every `screen.box_id` resolves to an existing box) now
fails — a dangling one-sided reference remains, contradicting the claim. -/
theorem c2_delete_box_leaves_dangling_reference :
    screensConsistent c2db = true ∧
    (appDeleteBox 5 c2db).1 = true ∧
    (appDeleteBox 5 c2db).2.boxes = [] ∧
    (appDeleteBox 5 c2db).2.screens = [c2screen] ∧
    screensConsistent (appDeleteBox 5 c2db).2 = false := by
  decide

/-! ### C7: the not-found marker is matched case-sensitively -/

/-- Spec-side matcher, following the claim's words: the "not found" marker
matched case- and spacing-insensitively. -/
def specInsensitiveAbsent (v resp : String) : Bool :=
  let norm : String → String := fun s => ⟨(lowerStr s).data.filter (fun c => !(c == ' '))⟩
  strContains (norm resp) (norm ("VLAN " ++ v ++ " not found"))

/-- C7 counterexample: on the response body `"vlan 999 not found"` the code's
classification says the VLAN exists (`vlan_exists` would return `True`),
although the claim's case-insensitive matching recognises the not-found
marker — so the claim's "matched case- and spacing-insensitively" is false of
the code, which compares the two literal `f"VLAN {id} not found"` forms
case-sensitively. -/
theorem c7_counterexample :
    vlanRespAbsent "999" "vlan 999 not found" = false ∧
    specInsensitiveAbsent "999" "vlan 999 not found" = true := by
  decide

/-- C7 (amended): `vlan_exists` classifies the response as "absent" exactly
when it contains `VLAN <id> not found` or `VLAN<id> not found` as a literal,
case-sensitive substring (zero or one space); any other response means the
VLAN exists; and on any scripted response the operation returns normally
(absence is an answer, not an error). -/
theorem c7_vlan_exists_case_sensitive (v resp : String) :
    (vlanRespAbsent v resp = true ↔
      ("VLAN " ++ v ++ " not found").data <:+: resp.data ∨
      ("VLAN" ++ v ++ " not found").data <:+: resp.data) ∧
    vlanExists scriptDev [some resp] [] v =
      .ok (!vlanRespAbsent v resp, [], [Cmd.showVlanId v]) := by
  constructor
  · simp [vlanRespAbsent, strContains]
  · rfl

/-! ### C10: attribute updates touch only the provided fields -/

/-- The record merge `update_box` applies to every row with the given id. -/
def mergeBox (n p v : Option String) (c : Box) : Box :=
  { c with box_number := n.getD c.box_number,
           port_number := p.getD c.port_number,
           vlan_number := match v with | some x => some x | none => c.vlan_number }

/-- The record merge `update_screen` applies to every row with the given id. -/
def mergeScreen (n p v : Option String) (c : Screen) : Screen :=
  { c with screen_number := match n with | some x => some x | none => c.screen_number,
           port_number := p.getD c.port_number,
           vlan_number := match v with | some x => some x | none => c.vlan_number }

theorem mergeBox_id_self (n p v : Option String) (c : Box) :
    (mergeBox n p v c).box_id = c.box_id := rfl

theorem mergeBox_user_self (n p v : Option String) (c : Box) :
    (mergeBox n p v c).user_id = c.user_id := rfl

theorem mergeBox_none (c : Box) : mergeBox none none none c = c := rfl

theorem mergeScreen_none (c : Screen) : mergeScreen none none none c = c := rfl

theorem map_eq_self_of_all {α : Type} {f : α → α} {l : List α}
    (h : ∀ a ∈ l, f a = a) : l.map f = l := by
  have := List.map_congr_left (g := id) h
  simpa using this

theorem updateBox_state (bid : Nat) (n p v : Option String) (bs : List Box) :
    (updateBox bid n p v bs).2 =
      bs.map (fun c => if c.box_id == bid then mergeBox n p v c else c) := by
  cases hgb : getBoxById bid bs with
  | none =>
    have hfe : bs.filter (fun x => x.box_id == bid) = [] := by
      have : (bs.filter (fun x => x.box_id == bid)).head? = none := hgb
      exact List.head?_eq_none_iff.mp this
    have hall : ∀ c ∈ bs, (if c.box_id == bid then mergeBox n p v c else c) = c := by
      intro c hc
      have : ¬(c.box_id == bid) = true := by
        intro hcb
        have : c ∈ bs.filter (fun x => x.box_id == bid) := List.mem_filter.mpr ⟨hc, hcb⟩
        simp [hfe] at this
      simp [this]
    rw [map_eq_self_of_all hall]
    simp [updateBox, hgb]
  | some b =>
    by_cases hall : n = none ∧ p = none ∧ v = none
    · obtain ⟨rfl, rfl, rfl⟩ := hall
      have hid : ∀ c ∈ bs,
          (if c.box_id == bid then mergeBox none none none c else c) = c := by
        intro c _
        by_cases hcb : (c.box_id == bid) = true <;> simp [hcb, mergeBox_none]
      rw [map_eq_self_of_all hid]
      simp [updateBox, hgb]
    · simp only [updateBox, hgb]
      rw [if_neg hall]
      rfl

theorem updateScreen_state (sid : Nat) (n p v : Option String) (ss : List Screen) :
    (updateScreen sid n p v ss).2 =
      ss.map (fun c => if c.screen_id == sid then mergeScreen n p v c else c) := by
  cases hgs : getScreenById sid ss with
  | none =>
    have hfe : ss.filter (fun x => x.screen_id == sid) = [] := by
      have : (ss.filter (fun x => x.screen_id == sid)).head? = none := hgs
      exact List.head?_eq_none_iff.mp this
    have hall : ∀ c ∈ ss, (if c.screen_id == sid then mergeScreen n p v c else c) = c := by
      intro c hc
      have : ¬(c.screen_id == sid) = true := by
        intro hcb
        have : c ∈ ss.filter (fun x => x.screen_id == sid) := List.mem_filter.mpr ⟨hc, hcb⟩
        simp [hfe] at this
      simp [this]
    rw [map_eq_self_of_all hall]
    simp [updateScreen, hgs]
  | some s =>
    by_cases hall : n = none ∧ p = none ∧ v = none
    · obtain ⟨rfl, rfl, rfl⟩ := hall
      have hid : ∀ c ∈ ss,
          (if c.screen_id == sid then mergeScreen none none none c else c) = c := by
        intro c _
        by_cases hcb : (c.screen_id == sid) = true <;> simp [hcb, mergeScreen_none]
      rw [map_eq_self_of_all hid]
      simp [updateScreen, hgs]
    · simp only [updateScreen, hgs]
      rw [if_neg hall]
      rfl

/-- C10: `update_box` / `update_screen` merge only the provided fields among
number/port/VLAN into the rows with the given id: the new table is the old
one with exactly those rows merged, a box's `user_id` and `box_id` are never
changed, a screen's `box_id` and `screen_id` are never changed, and with no
fields provided the found record is returned with the table unchanged. -/
theorem c10_update_modifies_only_provided_fields (bid sid : Nat)
    (n p v : Option String) (bs : List Box) (ss : List Screen) :
    ((updateBox bid n p v bs).2 =
      bs.map (fun c => if c.box_id == bid then mergeBox n p v c else c)) ∧
    ((updateBox bid n p v bs).2.map Box.user_id = bs.map Box.user_id) ∧
    ((updateBox bid n p v bs).2.map Box.box_id = bs.map Box.box_id) ∧
    (∀ b, getBoxById bid bs = some b →
      updateBox bid none none none bs = (some b, bs)) ∧
    ((updateScreen sid n p v ss).2 =
      ss.map (fun c => if c.screen_id == sid then mergeScreen n p v c else c)) ∧
    ((updateScreen sid n p v ss).2.map Screen.box_id = ss.map Screen.box_id) ∧
    ((updateScreen sid n p v ss).2.map Screen.screen_id = ss.map Screen.screen_id) ∧
    (∀ s, getScreenById sid ss = some s →
      updateScreen sid none none none ss = (some s, ss)) := by
  refine ⟨updateBox_state bid n p v bs, ?_, ?_, ?_,
    updateScreen_state sid n p v ss, ?_, ?_, ?_⟩
  · rw [updateBox_state, List.map_map]
    apply List.map_congr_left
    intro c _
    by_cases hcb : (c.box_id == bid) = true <;> simp [Function.comp, hcb, mergeBox_user_self]
  · rw [updateBox_state, List.map_map]
    apply List.map_congr_left
    intro c _
    by_cases hcb : (c.box_id == bid) = true <;> simp [Function.comp, hcb, mergeBox_id_self]
  · intro b hb
    simp [updateBox, hb]
  · rw [updateScreen_state, List.map_map]
    apply List.map_congr_left
    intro c _
    by_cases hcb : (c.screen_id == sid) = true <;>
      simp [Function.comp, hcb, mergeScreen]
  · rw [updateScreen_state, List.map_map]
    apply List.map_congr_left
    intro c _
    by_cases hcb : (c.screen_id == sid) = true <;>
      simp [Function.comp, hcb, mergeScreen]
  · intro s hs
    simp [updateScreen, hs]

/-- Witness for C10 at a concrete table: an update with no fields returns the
record unchanged, and a VLAN-only update leaves `user_id` and pairing alone. -/
theorem c10_witness :
    updateBox 1 none none none
      [{ box_id := 1, box_number := "B1", port_number := "Gi1/0/1",
         vlan_number := some "50", user_id := some "u7" }] =
      (some { box_id := 1, box_number := "B1", port_number := "Gi1/0/1",
              vlan_number := some "50", user_id := some "u7" },
       [{ box_id := 1, box_number := "B1", port_number := "Gi1/0/1",
          vlan_number := some "50", user_id := some "u7" }]) ∧
    updateScreen 2 none none none
      [{ screen_id := 2, screen_number := none, port_number := "Gi1/0/2",
         vlan_number := none, box_id := some 1 }] =
      (some { screen_id := 2, screen_number := none, port_number := "Gi1/0/2",
              vlan_number := none, box_id := some 1 },
       [{ screen_id := 2, screen_number := none, port_number := "Gi1/0/2",
          vlan_number := none, box_id := some 1 }]) := by
  have h := c10_update_modifies_only_provided_fields 1 2 none none none
    [{ box_id := 1, box_number := "B1", port_number := "Gi1/0/1",
       vlan_number := some "50", user_id := some "u7" }]
    [{ screen_id := 2, screen_number := none, port_number := "Gi1/0/2",
       vlan_number := none, box_id := some 1 }]
  exact ⟨h.2.2.2.1 _ (by decide), h.2.2.2.2.2.2.2 _ (by decide)⟩

/-! ### C5: full sync order, gating, and best-effort semantics -/

theorem syncScreensLoop_eq (env : SwitchEnv) (l : List Screen) :
    syncScreensLoop env l = l.filterMap (fun s =>
      if s.port_number ≠ "" ∧ truthy s.vlan_number = true then
        some (s.port_number, s.vlan_number.getD "",
          env.assignOk s.port_number (s.vlan_number.getD ""))
      else none) := by
  induction l with
  | nil => rfl
  | cons s t ih =>
    simp only [syncScreensLoop, List.filterMap_cons, ih]
    by_cases hp : s.port_number = ""
    · simp [hp]
    · by_cases hv : truthy s.vlan_number = true
      · simp [hp, hv]
      · simp [hp, hv]

theorem syncBoxesLoop_eq (env : SwitchEnv) (l : List Box) :
    syncBoxesLoop env l = l.filterMap (fun b =>
      if b.port_number ≠ "" then
        some (b.port_number, orDefault b.vlan_number env.defBoxVlan,
          env.assignOk b.port_number (orDefault b.vlan_number env.defBoxVlan))
      else none) := by
  induction l with
  | nil => rfl
  | cons b t ih =>
    simp only [syncBoxesLoop, List.filterMap_cons, ih]
    by_cases hp : b.port_number = ""
    · simp [hp]
    · simp [hp]

theorem callsOf_append (a b : List SwitchCall) :
    callsOf (a ++ b) = callsOf a ++ callsOf b := by
  simp [callsOf]

theorem callsOf_syncScreensLoop (env : SwitchEnv) (l : List Screen) :
    callsOf (syncScreensLoop env l) = l.filterMap (fun s =>
      if s.port_number ≠ "" ∧ truthy s.vlan_number = true then
        some (s.port_number, s.vlan_number.getD "") else none) := by
  rw [syncScreensLoop_eq, callsOf, List.map_filterMap]
  apply List.filterMap_congr
  intro x _
  split <;> rfl

theorem callsOf_syncBoxesLoop (env : SwitchEnv) (l : List Box) :
    callsOf (syncBoxesLoop env l) = l.filterMap (fun b =>
      if b.port_number ≠ "" then
        some (b.port_number, orDefault b.vlan_number env.defBoxVlan) else none) := by
  rw [syncBoxesLoop_eq, callsOf, List.map_filterMap]
  apply List.filterMap_congr
  intro x _
  split <;> rfl

/-- C5: full sync first walks every Screen (issuing a port→VLAN call only when
both the port and the VLAN field are set/truthy), then every Box (whenever the
port is set, with the box's VLAN or the default box VLAN); the trace contains
an entry for every eligible record no matter how earlier calls turned out
(per-port failures never abort the iteration), and the overall result is
success exactly when the connection was open or freshly established and
privileged mode was entered — independent of the per-port outcomes, as the
last conjunct states for an arbitrary replacement outcome oracle `g`. -/
theorem c5_sync_with_db (env : SwitchEnv) (db : DB) (g : String → String → Bool) :
    (syncWithDb env db).1 = ((env.connOpen || env.connectOk) && env.enableOk) ∧
    (syncWithDb env db).2 =
      (if (env.connOpen || env.connectOk) && env.enableOk then
        db.screens.filterMap (fun s =>
          if s.port_number ≠ "" ∧ truthy s.vlan_number = true then
            some (s.port_number, s.vlan_number.getD "",
              env.assignOk s.port_number (s.vlan_number.getD ""))
          else none) ++
        db.boxes.filterMap (fun b =>
          if b.port_number ≠ "" then
            some (b.port_number, orDefault b.vlan_number env.defBoxVlan,
              env.assignOk b.port_number (orDefault b.vlan_number env.defBoxVlan))
          else none)
      else []) ∧
    (syncWithDb { env with assignOk := g } db).1 = (syncWithDb env db).1 ∧
    callsOf (syncWithDb { env with assignOk := g } db).2 =
      callsOf (syncWithDb env db).2 := by
  obtain ⟨co, ck, eo, dbv, dsv, ao⟩ := env
  refine ⟨?_, ?_, ?_, ?_⟩
  · cases co <;> cases ck <;> cases eo <;> simp [syncWithDb]
  · cases co <;> cases ck <;> cases eo <;>
      simp [syncWithDb, syncScreensLoop_eq, syncBoxesLoop_eq]
  · cases co <;> cases ck <;> cases eo <;> simp [syncWithDb]
  · cases co <;> cases ck <;> cases eo <;>
      simp [syncWithDb, callsOf_append, callsOf_syncScreensLoop, callsOf_syncBoxesLoop]

/-! ### C4: pairing a box to a screen -/

/-- No two screen rows share a `screen_id` (guaranteed by max+1 id creation). -/
def ScreenIdsNodup (ss : List Screen) : Prop := (ss.map Screen.screen_id).Nodup

/-- C4: `assign_box_to_screen` is idempotent-success (mutating nothing) when
the screen is already paired to this box; fails, state unchanged, when the
screen is missing, when the screen is paired to a different box, or when the
box is paired to some screen while this one is free; and on a fresh success
the only change is that this screen's `box_id` becomes the box (the list is
split around the screen and only that element is replaced). -/
theorem c4_pair_box_to_screen (bid sid : Nat) (ss : List Screen)
    (hnd : ScreenIdsNodup ss) :
    (getScreenById sid ss = none → assignBoxToScreen bid sid ss = (none, ss)) ∧
    (∀ s, getScreenById sid ss = some s → s.box_id = some bid →
      assignBoxToScreen bid sid ss = (some s, ss)) ∧
    (∀ s b', getScreenById sid ss = some s → s.box_id = some b' → b' ≠ bid →
      assignBoxToScreen bid sid ss = (none, ss)) ∧
    (∀ s, getScreenById sid ss = some s → s.box_id = none →
      (getScreenByBoxId bid ss).isSome = true →
      assignBoxToScreen bid sid ss = (none, ss)) ∧
    (∀ s, getScreenById sid ss = some s → s.box_id = none →
      getScreenByBoxId bid ss = none →
      ∃ l1 l2, ss = l1 ++ s :: l2 ∧
        assignBoxToScreen bid sid ss =
          (some { s with box_id := some bid },
           l1 ++ { s with box_id := some bid } :: l2)) := by
  refine ⟨?_, ?_, ?_, ?_, ?_⟩
  · intro h
    simp [assignBoxToScreen, h]
  · intro s hs hb
    have hsid : s.screen_id = sid := (getScreenById_eq_some hs).2
    simp [assignBoxToScreen, hs, hb, hsid]
  · intro s b' hs hb hne
    have hb1 : ¬(s.box_id == some bid ∧ s.screen_id == sid) := by
      intro hc
      have : b' = bid := by
        have := hc.1
        rw [hb] at this
        simpa using this
      exact hne this
    simp only [assignBoxToScreen, hs, if_neg hb1]
    rw [if_pos (by simp [hb])]
  · intro s hs hb hsome
    have hb1 : ¬(s.box_id == some bid ∧ s.screen_id == sid) := by
      intro hc
      have := hc.1
      rw [hb] at this
      simp at this
    simp only [assignBoxToScreen, hs, if_neg hb1]
    rw [if_neg (by simp [hb]), if_pos hsome]
  · intro s hs hb hnone
    have h' : (ss.filter (fun x => x.screen_id == sid)).head? = some s := hs
    obtain ⟨l1, l2, hsplit, hl1, hps⟩ := head?_filter_eq_some h'
    have hsid : s.screen_id = sid := by simpa using hps
    refine ⟨l1, l2, hsplit, ?_⟩
    have hb1 : ¬(s.box_id == some bid ∧ s.screen_id == sid) := by
      intro hc
      have := hc.1
      rw [hb] at this
      simp at this
    have hnotsome : ¬(getScreenByBoxId bid ss).isSome = true := by
      rw [hnone]; simp
    simp only [assignBoxToScreen, hs, if_neg hb1]
    rw [if_neg (by simp [hb]), if_neg hnotsome]
    have hmap : ss.map
        (fun c => if c.screen_id == sid then { c with box_id := some bid } else c) =
        l1 ++ { s with box_id := some bid } :: l2 := by
      subst hsplit
      rw [List.map_append, List.map_cons]
      have h1 : l1.map
          (fun c => if c.screen_id == sid then { c with box_id := some bid } else c) = l1 :=
        map_eq_self_of_all (fun x hx => by simp [hl1 x hx])
      have h2 : l2.map
          (fun c => if c.screen_id == sid then { c with box_id := some bid } else c) = l2 := by
        apply map_eq_self_of_all
        intro x hx
        have hnotin : sid ∉ l2.map Screen.screen_id := by
          have hnd' : (l1.map Screen.screen_id ++
              s.screen_id :: l2.map Screen.screen_id).Nodup := by
            simpa [ScreenIdsNodup] using hnd
          have := (List.nodup_cons.mp hnd'.of_append_right).1
          rw [hsid] at this
          exact this
        have : ¬(x.screen_id = sid) := by
          intro hxe
          exact hnotin (hxe ▸ List.mem_map_of_mem Screen.screen_id hx)
        simp [this]
      have hfs : (if s.screen_id == sid then { s with box_id := some bid } else s) =
          { s with box_id := some bid } := by
        simp [hsid]
      rw [h1, hfs, h2]
    rw [hmap]

/-- Witness for C4: a two-screen table with distinct ids; screen 1 already
paired to box 9 re-pairs idempotently without mutation, and the fresh pairing
of box 9 to free screen 2 after unpairing touches only screen 2. -/
theorem c4_witness :
    assignBoxToScreen 9 1
      [{ screen_id := 1, screen_number := none, port_number := "Gi1/0/1",
         vlan_number := none, box_id := some 9 },
       { screen_id := 2, screen_number := none, port_number := "Gi1/0/2",
         vlan_number := none, box_id := none }] =
      (some { screen_id := 1, screen_number := none, port_number := "Gi1/0/1",
              vlan_number := none, box_id := some 9 },
       [{ screen_id := 1, screen_number := none, port_number := "Gi1/0/1",
          vlan_number := none, box_id := some 9 },
        { screen_id := 2, screen_number := none, port_number := "Gi1/0/2",
          vlan_number := none, box_id := none }]) := by
  have h := c4_pair_box_to_screen 9 1
    [{ screen_id := 1, screen_number := none, port_number := "Gi1/0/1",
       vlan_number := none, box_id := some 9 },
     { screen_id := 2, screen_number := none, port_number := "Gi1/0/2",
       vlan_number := none, box_id := none }] (by unfold ScreenIdsNodup; decide)
  exact h.2.1 _ (by decide) (by decide)

/-! ### C3: assigning a user to a box -/

/-- No two box rows share a `box_id` (guaranteed by max+1 id creation). -/
def IdsNodup (bs : List Box) : Prop := (bs.map Box.box_id).Nodup

/-- At most one box row references any given user id. -/
def UserInv (bs : List Box) : Prop :=
  ∀ u : String, bs.countP (fun b => b.user_id == some u) ≤ 1

/-- A single box already owned by user `"u"`. -/
def c3bs : List Box :=
  [{ box_id := 1, box_number := "B1", port_number := "Gi1/0/1",
     vlan_number := none, user_id := some "u" }]

/-- C3 counterexample: the claim says assigning a user to a box they already
own succeeds idempotently.  At the service level
(`BoxService.assign_user_to_box`, the cited symbol) the guard rejects any
owned box, including one owned by this very user: with box 1 owned by `"u"`,
assigning `"u"` to box 1 returns failure (`None`) with the state unchanged,
not the box. -/
theorem c3_counterexample :
    getBoxById 1 c3bs =
      some { box_id := 1, box_number := "B1", port_number := "Gi1/0/1",
             vlan_number := none, user_id := some "u" } ∧
    assignUserToBox "u" 1 c3bs = (none, c3bs) := by
  decide

/-- C3 (amended): at the service level `assign_user_to_box` fails `NotFound`
(returns `None`, state unchanged) when the box id does not exist, fails
(returns `None`, state unchanged) whenever the box already has *any* owning
user — even this exact user — and succeeds only on a free box, setting the
owner.  The claimed same-user idempotent success holds one level up, at the
coordinator route (`POST /boxes/assign`), which runs the defensive
`unassign_user_if_exists` first: there, assigning an owner to their own box
returns the box and leaves the table unchanged, and `AlreadyAssigned` can
only arise for a box owned by a different user. -/
theorem c3_assign_user_to_box (u : String) (bid : Nat) (bs : List Box) :
    (getBoxById bid bs = none → assignUserToBox u bid bs = (none, bs)) ∧
    (∀ b, getBoxById bid bs = some b → b.user_id ≠ none →
      assignUserToBox u bid bs = (none, bs)) ∧
    (∀ b, getBoxById bid bs = some b → b.user_id = none →
      assignUserToBox u bid bs = (some { b with user_id := some u },
        bs.map (fun c => if c.box_id == bid then { c with user_id := some u } else c))) ∧
    (IdsNodup bs → UserInv bs → ∀ b, getBoxById bid bs = some b →
      b.user_id = some u → appAssignBox u bid bs = (.ok b, bs)) := by
  refine ⟨?_, ?_, ?_, ?_⟩
  · intro h
    simp [assignUserToBox, h]
  · intro b hb hu
    simp [assignUserToBox, hb, hu]
  · intro b hb hu
    simp [assignUserToBox, hb, hu]
  · intro hnd hinv b hb hu
    obtain ⟨hmem, hbid⟩ := getBoxById_eq_some hb
    set fu : Box → Box :=
      fun x => if x.user_id == some u then { x with user_id := none } else x with hfu
    have hfu_id : ∀ x, (fu x).box_id = x.box_id := by
      intro x
      rw [hfu]
      dsimp only
      split <;> rfl
    have hbs1 : unassignUserIfExists u bs = bs.map fu := rfl
    have hget1 : getBoxById bid (bs.map fu) = some (fu b) := by
      rw [getBoxById_map hfu_id, hb]
      rfl
    have hfub : fu b = { b with user_id := none } := by
      simp [hfu, hu]
    have hback : { fu b with user_id := some u } = b := by
      rw [hfub]
      cases b
      simp_all
    set g : Box → Box :=
      fun c => if c.box_id == bid then { c with user_id := some u } else c with hg
    have hassign : assignUserToBox u bid (bs.map fu) =
        (some { fu b with user_id := some u }, (bs.map fu).map g) := by
      have hne : ¬((fu b).user_id ≠ none) := by rw [hfub]; simp
      simp only [assignUserToBox, hget1]
      rw [if_neg hne]
    have hstate : (bs.map fu).map g = bs := by
      rw [List.map_map]
      apply map_eq_self_of_all
      intro x hx
      by_cases hxu : (x.user_id == some u) = true
      · have hxb : x = b := by
          by_contra hne
          have h2 := two_le_countP_of_mem (p := fun c => c.user_id == some u)
            hx hmem hne hxu (by simp [hu])
          have := hinv u
          omega
        have hxbid : x.box_id = bid := by rw [hxb]; exact hbid
        have hxuser : x.user_id = some u := by rw [hxb]; exact hu
        show g (fu x) = x
        rw [hfu, hg]
        dsimp only
        rw [if_pos hxu]
        rw [if_pos (show ((Box.mk x.box_id x.box_number x.port_number x.vlan_number
          none).box_id == bid) = true by simpa using hxbid)]
        cases x
        simp_all
      · have hfux : fu x = x := by
          rw [hfu]
          dsimp only
          rw [if_neg hxu]
        show g (fu x) = x
        rw [hfux]
        have hxbid : ¬(x.box_id == bid) = true := by
          intro hxid
          have hxeq : x = b := by
            apply List.inj_on_of_nodup_map hnd hx hmem
            rw [hbid]
            simpa using hxid
          rw [hxeq, hu] at hxu
          simp at hxu
        rw [hg]
        dsimp only
        rw [if_neg hxbid]
    rw [appAssignBox, hbs1, hassign, hstate, hback]

/-- Witness for C3: with box 2 owned by `"u7"` (a one-row table), the route
re-assigns `"u7"` to box 2 successfully without changing anything, and the
raw service call on the same state fails. -/
theorem c3_witness :
    appAssignBox "u7" 2
      [{ box_id := 2, box_number := "B2", port_number := "Gi1/0/2",
         vlan_number := none, user_id := some "u7" }] =
      (.ok { box_id := 2, box_number := "B2", port_number := "Gi1/0/2",
             vlan_number := none, user_id := some "u7" },
       [{ box_id := 2, box_number := "B2", port_number := "Gi1/0/2",
          vlan_number := none, user_id := some "u7" }]) ∧
    assignUserToBox "u7" 2
      [{ box_id := 2, box_number := "B2", port_number := "Gi1/0/2",
         vlan_number := none, user_id := some "u7" }] =
      (none,
       [{ box_id := 2, box_number := "B2", port_number := "Gi1/0/2",
          vlan_number := none, user_id := some "u7" }]) := by
  have h := c3_assign_user_to_box "u7" 2
    [{ box_id := 2, box_number := "B2", port_number := "Gi1/0/2",
       vlan_number := none, user_id := some "u7" }]
  refine ⟨h.2.2.2 (by unfold IdsNodup; decide)
    (fun u => List.countP_le_length _)
    { box_id := 2, box_number := "B2", port_number := "Gi1/0/2",
      vlan_number := none, user_id := some "u7" } (by decide) (by decide), ?_⟩
  exact h.2.1
    { box_id := 2, box_number := "B2", port_number := "Gi1/0/2",
      vlan_number := none, user_id := some "u7" } (by decide) (by decide)

/-! ### C1: at most one box per user, after any operation sequence -/

/-- "references user `u`". -/
def pu (u : String) (b : Box) : Bool := b.user_id == some u

/-- The row transform of a successful `assign_user_to_box` table update. -/
def gAssign (u : String) (bid : Nat) (c : Box) : Box :=
  if c.box_id == bid then { c with user_id := some u } else c

theorem cnt_unassignIfExists_self (u : String) (bs : List Box) :
    (unassignUserIfExists u bs).countP (pu u) = 0 := by
  unfold unassignUserIfExists
  rw [List.countP_map, List.countP_eq_zero]
  intro a _
  by_cases hx : (a.user_id == some u) = true
  · rw [Function.comp, if_pos hx]
    simp [pu]
  · rw [Function.comp, if_neg hx]
    exact hx

theorem countP_map_le_of_imp {α : Type} {f : α → α} {p : α → Bool}
    (h : ∀ x, p (f x) = true → p x = true) (l : List α) :
    (l.map f).countP p ≤ l.countP p := by
  rw [List.countP_map]
  exact List.countP_mono_left (fun x _ hx => h x hx)

theorem cnt_unassignIfExists_le (u v : String) (bs : List Box) :
    (unassignUserIfExists u bs).countP (pu v) ≤ bs.countP (pu v) := by
  unfold unassignUserIfExists
  apply countP_map_le_of_imp
  intro x hx
  by_cases hxu : (x.user_id == some u) = true
  · rw [if_pos hxu] at hx
    simp [pu] at hx
  · rw [if_neg hxu] at hx
    exact hx

theorem ids_map_eq {f : Box → Box} (hf : ∀ x, (f x).box_id = x.box_id)
    (bs : List Box) : (bs.map f).map Box.box_id = bs.map Box.box_id := by
  rw [List.map_map]
  exact List.map_congr_left (fun a _ => hf a)

theorem unassignUserIfExists_ids (u : String) (bs : List Box) :
    (unassignUserIfExists u bs).map Box.box_id = bs.map Box.box_id := by
  unfold unassignUserIfExists
  apply ids_map_eq
  intro x
  by_cases hx : (x.user_id == some u) = true
  · rw [if_pos hx]
  · rw [if_neg hx]

theorem gAssign_ids (u : String) (bid : Nat) (bs : List Box) :
    (bs.map (gAssign u bid)).map Box.box_id = bs.map Box.box_id := by
  apply ids_map_eq
  intro x
  unfold gAssign
  by_cases hx : (x.box_id == bid) = true
  · rw [if_pos hx]
  · rw [if_neg hx]

theorem cnt_gAssign (u v : String) (bid : Nat) (l : List Box)
    (hnd : (l.map Box.box_id).Nodup) (hzero : l.countP (pu u) = 0)
    (hle : l.countP (pu v) ≤ 1) :
    (l.map (gAssign u bid)).countP (pu v) ≤ 1 := by
  rw [List.countP_map]
  by_cases huv : v = u
  · subst huv
    have step1 : l.countP (pu v ∘ gAssign v bid) ≤
        l.countP (fun x => (x.box_id == bid) || pu v x) := by
      apply List.countP_mono_left
      intro x _ hx
      by_cases hid : (x.box_id == bid) = true
      · simp [hid]
      · rw [Function.comp, gAssign, if_neg hid] at hx
        simp [hx]
    have step2 := countP_or_le (fun x => x.box_id == bid) (pu v) l
    have step3 := countP_beq_le_one_of_nodup hnd bid
    omega
  · have : l.countP (pu v ∘ gAssign u bid) ≤ l.countP (pu v) := by
      apply List.countP_mono_left
      intro x _ hx
      by_cases hid : (x.box_id == bid) = true
      · rw [Function.comp, gAssign, if_pos hid] at hx
        have : u = v := by simpa [pu] using hx
        exact absurd this.symm huv
      · rw [Function.comp, gAssign, if_neg hid] at hx
        exact hx
    omega

theorem assignUserToBox_state (u : String) (bid : Nat) (l : List Box) :
    (assignUserToBox u bid l).2 = l ∨
    (assignUserToBox u bid l).2 = l.map (gAssign u bid) := by
  unfold assignUserToBox
  cases h : getBoxById bid l with
  | none => exact .inl rfl
  | some b =>
    by_cases hu : b.user_id ≠ none
    · exact .inl (by simp [hu])
    · exact .inr (by simp [hu, gAssign])

theorem assignUserToAnyFreeBox_state (u : String) (l : List Box) :
    (assignUserToAnyFreeBox u l).2 = l ∨
    ∃ bid, (assignUserToAnyFreeBox u l).2 = l.map (gAssign u bid) := by
  unfold assignUserToAnyFreeBox
  cases h : (getFreeBoxes l).head? with
  | none => exact .inl rfl
  | some b => exact .inr ⟨b.box_id, rfl⟩

theorem unassignUserFromBox_state (u : String) (l : List Box) :
    (unassignUserFromBox u l).2 = l ∨
    (unassignUserFromBox u l).2 =
      l.map (fun b => if b.user_id == some u then { b with user_id := none } else b) := by
  unfold unassignUserFromBox
  by_cases h : l.any (fun b => b.user_id == some u)
  · exact .inr (by simp [h])
  · exact .inl (by simp [h])

theorem unassignBox_state (bid : Nat) (l : List Box) :
    (unassignBox bid l).2 = l ∨
    (unassignBox bid l).2 =
      l.map (fun c => if c.box_id == bid then { c with user_id := none } else c) := by
  unfold unassignBox
  cases h : getBoxById bid l with
  | none => exact .inl rfl
  | some b =>
    by_cases hu : b.user_id = none
    · exact .inl (by simp [hu])
    · exact .inr (by simp [hu])

theorem appAssignBox_state (u : String) (bid : Nat) (bs : List Box) :
    (appAssignBox u bid bs).2 =
      (assignUserToBox u bid (unassignUserIfExists u bs)).2 := by
  unfold appAssignBox
  rcases h : assignUserToBox u bid (unassignUserIfExists u bs) with ⟨r, bs2⟩
  cases r with
  | none =>
    simp only [h]
    split <;> rfl
  | some b => simp [h]

/-- One coordinator-level box operation preserves id-uniqueness and the
one-box-per-user bound. -/
theorem applyBoxOp_preserves (op : BoxOp) (bs : List Box)
    (h1 : IdsNodup bs) (h2 : UserInv bs) :
    IdsNodup (applyBoxOp op bs) ∧ UserInv (applyBoxOp op bs) := by
  have clear_imp : ∀ (u v : String) (x : Box),
      pu v (if x.user_id == some u then { x with user_id := none } else x) = true →
      pu v x = true := by
    intro u v x hx
    by_cases hxu : (x.user_id == some u) = true
    · rw [if_pos hxu] at hx
      simp [pu] at hx
    · rw [if_neg hxu] at hx
      exact hx
  have clearId_imp : ∀ (v : String) (bid : Nat) (x : Box),
      pu v (if x.box_id == bid then { x with user_id := none } else x) = true →
      pu v x = true := by
    intro v bid x hx
    by_cases hxi : (x.box_id == bid) = true
    · rw [if_pos hxi] at hx
      simp [pu] at hx
    · rw [if_neg hxi] at hx
      exact hx
  cases op with
  | coordAssign u bid =>
    show IdsNodup (appAssignBox u bid bs).2 ∧ UserInv (appAssignBox u bid bs).2
    rw [appAssignBox_state]
    set bs1 := unassignUserIfExists u bs with hbs1
    have hids1 : bs1.map Box.box_id = bs.map Box.box_id := unassignUserIfExists_ids u bs
    have hnd1 : (bs1.map Box.box_id).Nodup := by rw [hids1]; exact h1
    have hinv1 : ∀ v, bs1.countP (pu v) ≤ 1 :=
      fun v => le_trans (cnt_unassignIfExists_le u v bs) (h2 v)
    have hzero : bs1.countP (pu u) = 0 := cnt_unassignIfExists_self u bs
    rcases assignUserToBox_state u bid bs1 with hst | hst <;> rw [hst]
    · exact ⟨by unfold IdsNodup; rw [hids1]; exact h1, hinv1⟩
    · refine ⟨?_, fun v => cnt_gAssign u v bid bs1 hnd1 hzero (hinv1 v)⟩
      unfold IdsNodup
      rw [gAssign_ids, hids1]
      exact h1
  | coordAssignFree u =>
    show IdsNodup (appAssignFreeBox u bs).2 ∧ UserInv (appAssignFreeBox u bs).2
    unfold appAssignFreeBox
    set bs1 := unassignUserIfExists u bs with hbs1
    have hids1 : bs1.map Box.box_id = bs.map Box.box_id := unassignUserIfExists_ids u bs
    have hnd1 : (bs1.map Box.box_id).Nodup := by rw [hids1]; exact h1
    have hinv1 : ∀ v, bs1.countP (pu v) ≤ 1 :=
      fun v => le_trans (cnt_unassignIfExists_le u v bs) (h2 v)
    have hzero : bs1.countP (pu u) = 0 := cnt_unassignIfExists_self u bs
    rcases assignUserToAnyFreeBox_state u bs1 with hst | ⟨bid, hst⟩ <;> rw [hst]
    · exact ⟨by unfold IdsNodup; rw [hids1]; exact h1, hinv1⟩
    · refine ⟨?_, fun v => cnt_gAssign u v bid bs1 hnd1 hzero (hinv1 v)⟩
      unfold IdsNodup
      rw [gAssign_ids, hids1]
      exact h1
  | unassignByUser u =>
    show IdsNodup (unassignUserFromBox u bs).2 ∧ UserInv (unassignUserFromBox u bs).2
    rcases unassignUserFromBox_state u bs with hst | hst <;> rw [hst]
    · exact ⟨h1, h2⟩
    · constructor
      · unfold IdsNodup
        rw [ids_map_eq (fun x => by
          by_cases hx : (x.user_id == some u) = true
          · rw [if_pos hx]
          · rw [if_neg hx])]
        exact h1
      · intro v
        exact le_trans (countP_map_le_of_imp (clear_imp u v) bs) (h2 v)
  | unassignByBox bid =>
    show IdsNodup (unassignBox bid bs).2 ∧ UserInv (unassignBox bid bs).2
    rcases unassignBox_state bid bs with hst | hst <;> rw [hst]
    · exact ⟨h1, h2⟩
    · constructor
      · unfold IdsNodup
        rw [ids_map_eq (fun x => by
          by_cases hx : (x.box_id == bid) = true
          · rw [if_pos hx]
          · rw [if_neg hx])]
        exact h1
      · intro v
        exact le_trans (countP_map_le_of_imp (clearId_imp v bid) bs) (h2 v)

/-! ### C6: trace lemmas for the command-level worker model -/

/-- Every command of `tr'` was already in `tr` or is drawn from `A`. -/
def TraceOK (A tr tr' : List Cmd) : Prop := ∀ c ∈ tr', c ∈ tr ∨ c ∈ A

theorem traceOK_refl (A tr : List Cmd) : TraceOK A tr tr := fun _ hc => .inl hc

theorem traceOK_trans {A tr1 tr2 tr3 : List Cmd}
    (h1 : TraceOK A tr1 tr2) (h2 : TraceOK A tr2 tr3) : TraceOK A tr1 tr3 :=
  fun c hc => match h2 c hc with
  | .inl h => h1 c h
  | .inr h => .inr h

/-- The trace carried by a worker-step outcome, raised or returned. -/
def wresTrace {σ α : Type} : WRes σ α → List Cmd
  | .ok (_, _, tr) => tr
  | .error (_, tr) => tr

theorem sendC_traceOK {σ : Type} {A : List Cmd} {c0 : Cmd} (hc : c0 ∈ A)
    (dev : Dev σ) (st : σ) (tr : List Cmd) :
    TraceOK A tr (wresTrace (sendC dev st tr c0)) := by
  unfold sendC
  rcases h : dev.respond st c0 with ⟨r, st'⟩
  cases r with
  | none => exact traceOK_refl A tr
  | some resp =>
    intro c hcm
    rcases List.mem_append.mp hcm with h | h
    · exact .inl h
    · rw [List.mem_singleton.mp h]
      exact .inr hc

theorem enableMode_traceOK {σ : Type} {A : List Cmd}
    (h1 : Cmd.enable ∈ A) (h2 : Cmd.empty ∈ A) (dev : Dev σ) (st : σ) (tr : List Cmd) :
    TraceOK A tr (wresTrace (enableMode dev st tr)) := by
  unfold enableMode
  cases hs : sendC dev st tr .enable with
  | error e =>
    have h := sendC_traceOK h1 dev st tr
    rw [hs] at h
    exact h
  | ok res =>
    obtain ⟨r, st1, tr1⟩ := res
    have h := sendC_traceOK h1 dev st tr
    rw [hs] at h
    dsimp only
    split
    · exact h
    · cases hs2 : sendC dev st1 tr1 .empty with
      | error e =>
        have h3 := sendC_traceOK h2 dev st1 tr1
        rw [hs2] at h3
        exact traceOK_trans h h3
      | ok res2 =>
        obtain ⟨r2, st2, tr2⟩ := res2
        have h3 := sendC_traceOK h2 dev st1 tr1
        rw [hs2] at h3
        exact traceOK_trans h h3

theorem configureTerminal_traceOK {σ : Type} {A : List Cmd}
    (h1 : Cmd.confTerm ∈ A) (dev : Dev σ) (st : σ) (tr : List Cmd) :
    TraceOK A tr (wresTrace (configureTerminal dev st tr)) := by
  unfold configureTerminal
  cases hs : sendC dev st tr .confTerm with
  | error e =>
    have h := sendC_traceOK h1 dev st tr
    rw [hs] at h
    exact h
  | ok res =>
    obtain ⟨r, st1, tr1⟩ := res
    have h := sendC_traceOK h1 dev st tr
    rw [hs] at h
    exact h

theorem exitConfigMode_traceOK {σ : Type} {A : List Cmd}
    (h1 : Cmd.endC ∈ A) (h2 : Cmd.empty ∈ A) (dev : Dev σ) (st : σ) (tr : List Cmd) :
    TraceOK A tr (wresTrace (exitConfigMode dev st tr)) := by
  unfold exitConfigMode
  cases hs : sendC dev st tr .endC with
  | error e =>
    have h := sendC_traceOK h1 dev st tr
    rw [hs] at h
    exact h
  | ok res =>
    obtain ⟨r, st1, tr1⟩ := res
    have h := sendC_traceOK h1 dev st tr
    rw [hs] at h
    dsimp only
    cases hs2 : sendC dev st1 tr1 .empty with
    | error e =>
      have h3 := sendC_traceOK h2 dev st1 tr1
      rw [hs2] at h3
      exact traceOK_trans h h3
    | ok res2 =>
      obtain ⟨r2, st2, tr2⟩ := res2
      have h3 := sendC_traceOK h2 dev st1 tr1
      rw [hs2] at h3
      exact traceOK_trans h h3

theorem vlanExists_traceOK {σ : Type} {A : List Cmd} {v : String}
    (h1 : Cmd.showVlanId v ∈ A) (dev : Dev σ) (st : σ) (tr : List Cmd) :
    TraceOK A tr (wresTrace (vlanExists dev st tr v)) := by
  unfold vlanExists
  cases hs : sendC dev st tr (.showVlanId v) with
  | error e =>
    have h := sendC_traceOK h1 dev st tr
    rw [hs] at h
    exact h
  | ok res =>
    obtain ⟨r, st1, tr1⟩ := res
    have h := sendC_traceOK h1 dev st tr
    rw [hs] at h
    exact h

theorem configShownProbe_traceOK {σ : Type} {A : List Cmd}
    (h2 : Cmd.empty ∈ A) (dev : Dev σ) (st : σ) (tr : List Cmd) :
    TraceOK A tr (wresTrace (configShownProbe dev st tr)) := by
  unfold configShownProbe
  cases hs : sendC dev st tr .empty with
  | error e =>
    have h := sendC_traceOK h2 dev st tr
    rw [hs] at h
    exact h
  | ok res =>
    obtain ⟨r, st1, tr1⟩ := res
    have h := sendC_traceOK h2 dev st tr
    rw [hs] at h
    exact h

theorem ensureConfigProbe_traceOK {σ : Type} {A : List Cmd}
    (h1 : Cmd.empty ∈ A) (h2 : Cmd.enable ∈ A) (dev : Dev σ) (st : σ) (tr : List Cmd) :
    TraceOK A tr (wresTrace (ensureConfigProbe dev st tr)) := by
  unfold ensureConfigProbe
  cases hs : sendC dev st tr .empty with
  | error e =>
    have h := sendC_traceOK h1 dev st tr
    rw [hs] at h
    exact h
  | ok res =>
    obtain ⟨r, st1, tr1⟩ := res
    have h := sendC_traceOK h1 dev st tr
    rw [hs] at h
    dsimp only
    split
    · exact traceOK_trans h (configShownProbe_traceOK h1 dev st1 tr1)
    · cases he : enableMode dev st1 tr1 with
      | error e =>
        have h3 := enableMode_traceOK h2 h1 dev st1 tr1
        rw [he] at h3
        exact traceOK_trans h h3
      | ok res2 =>
        obtain ⟨b, st2, tr2⟩ := res2
        have h3 := enableMode_traceOK h2 h1 dev st1 tr1
        rw [he] at h3
        cases b with
        | true => exact traceOK_trans (traceOK_trans h h3) (configShownProbe_traceOK h1 dev st2 tr2)
        | false => exact traceOK_trans h h3

theorem createInConfig_traceOK {σ : Type} {A : List Cmd} {v : String} {name : Option String}
    (h1 : Cmd.vlanCreate v name ∈ A) (h2 : Cmd.showVlanId v ∈ A)
    (dev : Dev σ) (st : σ) (tr : List Cmd) :
    TraceOK A tr (wresTrace (createInConfig dev st tr v name)) := by
  unfold createInConfig
  cases hs : sendC dev st tr (.vlanCreate v name) with
  | error e =>
    have h := sendC_traceOK h1 dev st tr
    rw [hs] at h
    exact h
  | ok res =>
    obtain ⟨r, st1, tr1⟩ := res
    have h := sendC_traceOK h1 dev st tr
    rw [hs] at h
    exact traceOK_trans h (vlanExists_traceOK h2 dev st1 tr1)

theorem createEnterConfig_traceOK {σ : Type} {A : List Cmd} {v : String} {name : Option String}
    (h1 : Cmd.confTerm ∈ A) (h2 : Cmd.vlanCreate v name ∈ A)
    (h3 : Cmd.endC ∈ A) (h4 : Cmd.empty ∈ A) (h5 : Cmd.showVlanId v ∈ A)
    (dev : Dev σ) (st : σ) (tr : List Cmd) :
    TraceOK A tr (wresTrace (createEnterConfig dev st tr v name)) := by
  unfold createEnterConfig
  cases hc : configureTerminal dev st tr with
  | error e =>
    have h := configureTerminal_traceOK h1 dev st tr
    rw [hc] at h
    exact h
  | ok res =>
    obtain ⟨b, st1, tr1⟩ := res
    have h := configureTerminal_traceOK h1 dev st tr
    rw [hc] at h
    dsimp only
    cases hs : sendC dev st1 tr1 (.vlanCreate v name) with
    | error e =>
      have ha := sendC_traceOK h2 dev st1 tr1
      rw [hs] at ha
      exact traceOK_trans h ha
    | ok res2 =>
      obtain ⟨r2, st2, tr2⟩ := res2
      have ha := sendC_traceOK h2 dev st1 tr1
      rw [hs] at ha
      dsimp only
      cases hx : exitConfigMode dev st2 tr2 with
      | error e =>
        have hb := exitConfigMode_traceOK h3 h4 dev st2 tr2
        rw [hx] at hb
        exact traceOK_trans (traceOK_trans h ha) hb
      | ok res3 =>
        obtain ⟨u, st3, tr3⟩ := res3
        have hb := exitConfigMode_traceOK h3 h4 dev st2 tr2
        rw [hx] at hb
        exact traceOK_trans (traceOK_trans (traceOK_trans h ha) hb)
          (vlanExists_traceOK h5 dev st3 tr3)

/-- The commands `create_vlan` may ever send: probes, `enable`,
`configure terminal`, `end`, the show query, and the creation command —
never any of the four port-configuration commands. -/
def createVlanCmds (v : String) (name : Option String) : List Cmd :=
  [Cmd.empty, Cmd.enable, Cmd.confTerm, Cmd.endC, Cmd.showVlanId v, Cmd.vlanCreate v name]

theorem createVlan_traceOK {σ : Type} (dev : Dev σ) (st : σ) (tr : List Cmd)
    (v : String) (name : Option String) :
    TraceOK (createVlanCmds v name) tr (wresTrace (createVlan dev st tr v name)) := by
  have hem : Cmd.empty ∈ createVlanCmds v name := by simp [createVlanCmds]
  have hen : Cmd.enable ∈ createVlanCmds v name := by simp [createVlanCmds]
  have hct : Cmd.confTerm ∈ createVlanCmds v name := by simp [createVlanCmds]
  have hend : Cmd.endC ∈ createVlanCmds v name := by simp [createVlanCmds]
  have hsh : Cmd.showVlanId v ∈ createVlanCmds v name := by simp [createVlanCmds]
  have hvc : Cmd.vlanCreate v name ∈ createVlanCmds v name := by simp [createVlanCmds]
  unfold createVlan
  cases hv : vlanExists dev st tr v with
  | error e =>
    have h := vlanExists_traceOK hsh dev st tr
    rw [hv] at h
    exact h
  | ok res =>
    obtain ⟨b, st1, tr1⟩ := res
    have h := vlanExists_traceOK hsh dev st tr
    rw [hv] at h
    cases b with
    | true => exact h
    | false =>
      dsimp only
      cases hp : ensureConfigProbe dev st1 tr1 with
      | error e =>
        obtain ⟨st2, tr2⟩ := e
        have h2 := ensureConfigProbe_traceOK hem hen dev st1 tr1
        rw [hp] at h2
        exact traceOK_trans h h2
      | ok res2 =>
        obtain ⟨ob, st2, tr2⟩ := res2
        have h2 := ensureConfigProbe_traceOK hem hen dev st1 tr1
        rw [hp] at h2
        cases ob with
        | none => exact traceOK_trans h h2
        | some inCfg =>
          cases inCfg with
          | true =>
            dsimp only
            cases hci : createInConfig dev st2 tr2 v name with
            | error e =>
              obtain ⟨st3, tr3⟩ := e
              have h3 := createInConfig_traceOK hvc hsh dev st2 tr2
              rw [hci] at h3
              exact traceOK_trans (traceOK_trans h h2) h3
            | ok res3 =>
              have h3 := createInConfig_traceOK hvc hsh dev st2 tr2
              rw [hci] at h3
              exact traceOK_trans (traceOK_trans h h2) h3
          | false =>
            dsimp only
            cases hce : createEnterConfig dev st2 tr2 v name with
            | error e =>
              obtain ⟨st3, tr3⟩ := e
              have h3 := createEnterConfig_traceOK hct hvc hend hem hsh dev st2 tr2
              rw [hce] at h3
              dsimp only
              cases hx : exitConfigMode dev st3 tr3 with
              | error e2 =>
                have h4 := exitConfigMode_traceOK hend hem dev st3 tr3
                rw [hx] at h4
                exact traceOK_trans (traceOK_trans (traceOK_trans h h2) h3) h4
              | ok res4 =>
                obtain ⟨u, st4, tr4⟩ := res4
                have h4 := exitConfigMode_traceOK hend hem dev st3 tr3
                rw [hx] at h4
                exact traceOK_trans (traceOK_trans (traceOK_trans h h2) h3) h4
            | ok res3 =>
              have h3 := createEnterConfig_traceOK hct hvc hend hem hsh dev st2 tr2
              rw [hce] at h3
              exact traceOK_trans (traceOK_trans h h2) h3

theorem ausStep2_db (env env' : SwitchEnv) (db : DB) (sid bid : Nat) (screen : Screen) :
    (ausStep2 env db sid bid screen).1 = (ausStep2 env' db sid bid screen).1 := by
  unfold ausStep2
  repeat' split
  all_goals rfl

theorem ausStep3_db (env env' : SwitchEnv) (db1 : DB) (sid bid : Nat) (box : Box) :
    (ausStep3 env db1 sid bid box).1 = (ausStep3 env' db1 sid bid box).1 := by
  unfold ausStep3
  repeat' split
  all_goals rfl

theorem ausStep4_indep (env env' : SwitchEnv) (db2 : DB) (sid bid : Nat) (box : Box) :
    (ausStep4 env db2 sid bid box).1 = (ausStep4 env' db2 sid bid box).1 ∧
    (ausStep4 env db2 sid bid box).2.1 = (ausStep4 env' db2 sid bid box).2.1 := by
  unfold ausStep4
  constructor <;>
  · repeat' split
    all_goals rfl

/-- The outcome and database of the assign-user-to-screen route do not depend
on the switch environment. -/
theorem appAUS_env_indep (env env' : SwitchEnv) (db : DB) (sid : Nat) (uid : String) :
    (appAssignUserToScreen env db sid uid).1 = (appAssignUserToScreen env' db sid uid).1 ∧
    (appAssignUserToScreen env db sid uid).2.1 =
      (appAssignUserToScreen env' db sid uid).2.1 := by
  unfold appAssignUserToScreen
  cases hs : getScreenById sid db.screens with
  | none => exact ⟨rfl, rfl⟩
  | some screen =>
    cases hbx : getBoxByUserId uid db.boxes with
    | none => exact ⟨rfl, rfl⟩
    | some box =>
      dsimp only
      rcases h2 : ausStep2 env db sid box.box_id screen with ⟨db1, trA⟩
      rcases h2' : ausStep2 env' db sid box.box_id screen with ⟨db1', trA'⟩
      have hdb1 : db1 = db1' := by
        have h := ausStep2_db env env' db sid box.box_id screen
        rw [h2, h2'] at h
        exact h
      subst hdb1
      rcases h3 : ausStep3 env db1 sid box.box_id box with ⟨db2, trB⟩
      rcases h3' : ausStep3 env' db1 sid box.box_id box with ⟨db2', trB'⟩
      have hdb2 : db2 = db2' := by
        have h := ausStep3_db env env' db1 sid box.box_id box
        rw [h3, h3'] at h
        exact h
      subst hdb2
      rcases h4 : ausStep4 env db2 sid box.box_id box with ⟨r, db3, trC⟩
      rcases h4' : ausStep4 env' db2 sid box.box_id box with ⟨r', db3', trC'⟩
      have hind := ausStep4_indep env env' db2 sid box.box_id box
      rw [h4, h4'] at hind
      exact ⟨hind.1, hind.2⟩

/-- C6: `assign_port_to_vlan` fails fast when VLAN creation fails — it
returns `False` with exactly the state and trace `create_vlan` left, and
`create_vlan` itself never emits any of the four port-configuration commands
(its commands are drawn from `createVlanCmds`); any exception raised inside
the body is swallowed by the handler, which returns `False` instead of
propagating; and at the coordinator level the outcome and the database state
of the assign-user-to-screen route do not depend on the switch environment at
all — in particular a switch failure after the store's pairing mutation
leaves that mutation intact (no rollback). -/
theorem c6_assign_port_failure_handling {σ : Type} (dev : Dev σ) (st : σ)
    (tr : List Cmd) (port v : String)
    (env env' : SwitchEnv) (db : DB) (sid : Nat) (uid : String) :
    (∀ st' tr', createVlan dev st tr v none = .ok (false, st', tr') →
      assignPortToVlan dev st tr port v = (false, st', tr')) ∧
    (∀ b st' tr', createVlan dev st tr v none = .ok (b, st', tr') →
      ∀ c ∈ tr', c ∈ tr ∨ c ∈ createVlanCmds v none) ∧
    (∀ st' tr', assignTry dev st tr port v = .error (st', tr') →
      (assignPortToVlan dev st tr port v).1 = false) ∧
    ((appAssignUserToScreen env db sid uid).1 =
        (appAssignUserToScreen env' db sid uid).1 ∧
      (appAssignUserToScreen env db sid uid).2.1 =
        (appAssignUserToScreen env' db sid uid).2.1) := by
  refine ⟨?_, ?_, ?_, ?_⟩
  · intro st' tr' h
    unfold assignPortToVlan assignTry
    rw [h]
  · intro b st' tr' h c hc
    have ht := createVlan_traceOK dev st tr v none
    rw [h] at ht
    exact ht c hc
  · intro st' tr' h
    unfold assignPortToVlan
    rw [h]
    dsimp only
    rcases exitConfigMode dev st' tr' with e | val
    · rcases e with ⟨st2, tr2⟩
      rfl
    · rcases val with ⟨u, st2, tr2⟩
      rfl
  · exact appAUS_env_indep env env' db sid uid

/-- Witness for C6: a scripted device whose responses make `create_vlan`
report failure (the VLAN never shows up) makes `assign_port_to_vlan` return
`False` with the creation attempt's trace and no port command ever sent; an
exhausted script (every send raises) also yields `False`; and the
assign-user-to-screen route produces the same result and database with a
fully dead switch as with a fully healthy one. -/
theorem c6_witness :
    assignPortToVlan scriptDev
      [some "VLAN 9 not found", some "Switch#", some "Switch(config)#",
       some "ok", some "VLAN 9 not found"] [] "Gi1/0/1" "9" =
      (false, [], [Cmd.showVlanId "9", Cmd.empty, Cmd.empty,
        Cmd.vlanCreate "9" none, Cmd.showVlanId "9"]) ∧
    (assignPortToVlan scriptDev [] [] "Gi1/0/1" "9").1 = false ∧
    ((appAssignUserToScreen
        { connOpen := false, connectOk := false, enableOk := false,
          defBoxVlan := "1", defScreenVlan := "101", assignOk := fun _ _ => false }
        { boxes := [{ box_id := 1, box_number := "B1", port_number := "Gi1/0/1",
                      vlan_number := some "50", user_id := some "u7" }],
          screens := [{ screen_id := 1, screen_number := none,
                        port_number := "Gi1/0/10", vlan_number := none, box_id := none }] }
        1 "u7").2.1 =
      (appAssignUserToScreen
        { connOpen := true, connectOk := true, enableOk := true,
          defBoxVlan := "1", defScreenVlan := "101", assignOk := fun _ _ => true }
        { boxes := [{ box_id := 1, box_number := "B1", port_number := "Gi1/0/1",
                      vlan_number := some "50", user_id := some "u7" }],
          screens := [{ screen_id := 1, screen_number := none,
                        port_number := "Gi1/0/10", vlan_number := none, box_id := none }] }
        1 "u7").2.1) := by
  have h := c6_assign_port_failure_handling scriptDev
    [some "VLAN 9 not found", some "Switch#", some "Switch(config)#",
     some "ok", some "VLAN 9 not found"] [] "Gi1/0/1" "9"
    { connOpen := false, connectOk := false, enableOk := false,
      defBoxVlan := "1", defScreenVlan := "101", assignOk := fun _ _ => false }
    { connOpen := true, connectOk := true, enableOk := true,
      defBoxVlan := "1", defScreenVlan := "101", assignOk := fun _ _ => true }
    { boxes := [{ box_id := 1, box_number := "B1", port_number := "Gi1/0/1",
                  vlan_number := some "50", user_id := some "u7" }],
      screens := [{ screen_id := 1, screen_number := none,
                    port_number := "Gi1/0/10", vlan_number := none, box_id := none }] }
    1 "u7"
  have h2 := c6_assign_port_failure_handling scriptDev
    ([] : List (Option String)) [] "Gi1/0/1" "9"
    { connOpen := false, connectOk := false, enableOk := false,
      defBoxVlan := "1", defScreenVlan := "101", assignOk := fun _ _ => false }
    { connOpen := true, connectOk := true, enableOk := true,
      defBoxVlan := "1", defScreenVlan := "101", assignOk := fun _ _ => true }
    { boxes := [], screens := [] } 1 "u7"
  refine ⟨h.1 [] [Cmd.showVlanId "9", Cmd.empty, Cmd.empty,
    Cmd.vlanCreate "9" none, Cmd.showVlanId "9"] (by rfl), ?_, h.2.2.2.2⟩
  exact h2.2.2.1 [] [] (by rfl)

/-! ### C8: `create_vlan` is idempotent via the `vlan_exists` short-circuit -/

theorem vlanRespAbsent_eq_false (v r : String)
    (h : ¬ ((" not found" : String).data <:+: r.data)) :
    vlanRespAbsent v r = false := by
  have key : ∀ (a : String), ¬ ((a ++ v ++ " not found").data <:+: r.data) := by
    intro a hc
    apply h
    refine List.IsInfix.trans ?_ hc
    apply List.IsSuffix.isInfix
    show (" not found" : String).data <:+ (a ++ v ++ " not found").data
    have he : (a ++ v ++ " not found").data =
        (a.data ++ v.data) ++ (" not found" : String).data := by
      rw [String.data_append, String.data_append, List.append_assoc]
    rw [he]
    exact List.suffix_append _ _
  unfold vlanRespAbsent strContains
  apply decide_eq_false
  rintro (h1 | h2)
  · exact key "VLAN " (by simpa using h1)
  · exact key "VLAN" (by simpa using h2)

/-- The simulator's "present" answer never matches the not-found marker. -/
theorem vlanRespAbsent_active (v : String) :
    vlanRespAbsent v "VLAN Name Status active" = false :=
  vlanRespAbsent_eq_false v _ (by decide)

/-- The simulator's "absent" answer always matches the marker. -/
theorem vlanRespAbsent_notfound (v : String) :
    vlanRespAbsent v ("VLAN " ++ v ++ " not found") = true := by
  unfold vlanRespAbsent strContains
  simp

/-- When the existence probe already reports the VLAN, `create_vlan` returns
success after that single `show` query, issuing no further command. -/
theorem sim_createVlan_mem (d : SimSw) (v : String) (tr : List Cmd)
    (hv : v ∈ d.vlans) :
    createVlan simDev d tr v none = .ok (true, d, tr ++ [Cmd.showVlanId v]) := by
  have hc : d.vlans.contains v = true := by simpa using hv
  simp [createVlan, vlanExists, sendC, simDev, simRespond, hc, hv, vlanRespAbsent_active]

theorem sim_createVlan_new_user (d : SimSw) (v : String)
    (hv : v ∉ d.vlans) (hm : d.mode = .user) :
    createVlan simDev d [] v none =
      .ok (true, { vlans := v :: d.vlans, mode := .priv },
        [Cmd.showVlanId v, Cmd.empty, Cmd.enable, Cmd.empty, Cmd.empty,
         Cmd.confTerm, Cmd.vlanCreate v none, Cmd.endC, Cmd.empty,
         Cmd.showVlanId v]) := by
  have hc : d.vlans.contains v = false := by simpa using hv
  simp +decide [createVlan, vlanExists, sendC, simDev, simRespond, SimSw.prompt,
    ensureConfigProbe, configShownProbe, enableMode, configureTerminal,
    exitConfigMode, createInConfig, createEnterConfig, hc, hv, hm,
    vlanRespAbsent_notfound, vlanRespAbsent_active, lowerStr, strContains]

theorem sim_createVlan_new_priv (d : SimSw) (v : String)
    (hv : v ∉ d.vlans) (hm : d.mode = .priv) :
    createVlan simDev d [] v none =
      .ok (true, { vlans := v :: d.vlans, mode := .priv },
        [Cmd.showVlanId v, Cmd.empty, Cmd.empty, Cmd.confTerm,
         Cmd.vlanCreate v none, Cmd.endC, Cmd.empty, Cmd.showVlanId v]) := by
  have hc : d.vlans.contains v = false := by simpa using hv
  simp +decide [createVlan, vlanExists, sendC, simDev, simRespond, SimSw.prompt,
    ensureConfigProbe, configShownProbe, enableMode, configureTerminal,
    exitConfigMode, createInConfig, createEnterConfig, hc, hv, hm,
    vlanRespAbsent_notfound, vlanRespAbsent_active, lowerStr, strContains]

theorem sim_createVlan_new_config (d : SimSw) (v : String)
    (hv : v ∉ d.vlans) (hm : d.mode = .config) :
    createVlan simDev d [] v none =
      .ok (true, { vlans := v :: d.vlans, mode := .config },
        [Cmd.showVlanId v, Cmd.empty, Cmd.empty, Cmd.vlanCreate v none,
         Cmd.showVlanId v]) := by
  have hc : d.vlans.contains v = false := by simpa using hv
  simp +decide [createVlan, vlanExists, sendC, simDev, simRespond, SimSw.prompt,
    ensureConfigProbe, configShownProbe, enableMode, configureTerminal,
    exitConfigMode, createInConfig, createEnterConfig, hc, hv, hm,
    vlanRespAbsent_notfound, vlanRespAbsent_active, lowerStr, strContains]

/-- C8: against a simulated device that echoes its configured state, any
first `create_vlan` call succeeds and leaves the VLAN present; the second
call with the same id then short-circuits on the `vlan_exists` probe: it
returns success having sent exactly the single `show vlan id` query — no
creation command (`vlan <id>`) is ever issued the second time, and the
device state is untouched. -/
theorem c8_create_vlan_idempotent (d : SimSw) (v : String) :
    ∃ b1 d1 tr1, createVlan simDev d [] v none = .ok (b1, d1, tr1) ∧
      v ∈ d1.vlans ∧
      createVlan simDev d1 [] v none = .ok (true, d1, [Cmd.showVlanId v]) ∧
      (∀ name, Cmd.vlanCreate v name ∉ [Cmd.showVlanId v]) := by
  by_cases hv : v ∈ d.vlans
  · refine ⟨true, d, [Cmd.showVlanId v], ?_, hv, ?_, ?_⟩
    · simpa using sim_createVlan_mem d v [] hv
    · simpa using sim_createVlan_mem d v [] hv
    · intro name
      simp
  · cases hm : d.mode with
    | user =>
      refine ⟨true, _, _, sim_createVlan_new_user d v hv hm,
        List.mem_cons_self v d.vlans, ?_, ?_⟩
      · simpa using sim_createVlan_mem _ v [] (List.mem_cons_self v d.vlans)
      · intro name
        simp
    | priv =>
      refine ⟨true, _, _, sim_createVlan_new_priv d v hv hm,
        List.mem_cons_self v d.vlans, ?_, ?_⟩
      · simpa using sim_createVlan_mem _ v [] (List.mem_cons_self v d.vlans)
      · intro name
        simp
    | config =>
      refine ⟨true, _, _, sim_createVlan_new_config d v hv hm,
        List.mem_cons_self v d.vlans, ?_, ?_⟩
      · simpa using sim_createVlan_mem _ v [] (List.mem_cons_self v d.vlans)
      · intro name
        simp

/-- C1: starting from any table with unique box ids in which every user owns
at most one box (in particular a freshly created table), after any sequence
of coordinator-level assign/unassign operations — assign to a specific box
and assign to any free box (each preceded by the defensive
`unassign_user_if_exists`), unassign by user, unassign by box — at most one
box row references any given user id. -/
theorem c1_at_most_one_box_per_user (ops : List BoxOp) (bs : List Box)
    (h1 : IdsNodup bs) (h2 : UserInv bs) :
    UserInv (runBoxOps ops bs) ∧ IdsNodup (runBoxOps ops bs) := by
  induction ops generalizing bs with
  | nil => exact ⟨h2, h1⟩
  | cons op rest ih =>
    have hstep := applyBoxOp_preserves op bs h1 h2
    exact ih (applyBoxOp op bs) hstep.1 hstep.2

/-- Witness for C1: two fresh boxes, then a sequence that assigns user 7001
to box 1, re-assigns 7001 to box 2, auto-assigns 7002, and unassigns box 2 —
the one-box-per-user bound holds at the end. -/
theorem c1_witness :
    UserInv (runBoxOps
      [.coordAssign "7001" 1, .coordAssign "7001" 2, .coordAssignFree "7002",
       .unassignByBox 2]
      [{ box_id := 1, box_number := "B1", port_number := "Gi1/0/1",
         vlan_number := none, user_id := none },
       { box_id := 2, box_number := "B2", port_number := "Gi1/0/2",
         vlan_number := none, user_id := none }]) := by
  have h := c1_at_most_one_box_per_user
    [.coordAssign "7001" 1, .coordAssign "7001" 2, .coordAssignFree "7002",
     .unassignByBox 2]
    [{ box_id := 1, box_number := "B1", port_number := "Gi1/0/1",
       vlan_number := none, user_id := none },
     { box_id := 2, box_number := "B2", port_number := "Gi1/0/2",
       vlan_number := none, user_id := none }]
    (by unfold IdsNodup; decide)
    (fun u => by
      have := List.countP_le_length (l :=
        [{ box_id := 1, box_number := "B1", port_number := "Gi1/0/1",
           vlan_number := none, user_id := none },
         { box_id := 2, box_number := "B2", port_number := "Gi1/0/2",
           vlan_number := none, user_id := none }]) (p := pu u)
      -- two fresh boxes own nobody, so the count is in fact zero
      simp only [List.countP_cons, List.countP_nil, pu] at *
      simp
      )
  exact h.1

/-- C9: reassigning a screen from an old box to the user's (different) box
issues the switch call resetting the old box's port to its default VLAN
strictly before the switch call configuring the screen's port to the new
box's VLAN: the old-box reset is the very first call of the route's trace and
the screen configuration is its last. -/
theorem c9_reset_before_configure (env : SwitchEnv) (db : DB) (sid : Nat)
    (uid : String) (screen : Screen) (box ob : Box) (oldBid : Nat)
    (h1 : getScreenById sid db.screens = some screen)
    (h2 : screen.box_id = some oldBid)
    (h3 : getBoxByUserId uid db.boxes = some box)
    (h4 : oldBid ≠ box.box_id)
    (h5 : getBoxById oldBid db.boxes = some ob)
    (h6 : ob.port_number ≠ "")
    (h7 : env.connOpen = true)
    (h8 : screen.port_number ≠ "")
    (h9 : truthy box.vlan_number = true) :
    ∃ mid,
      (appAssignUserToScreen env db sid uid).1 =
        .ok { screen with box_id := some box.box_id } ∧
      callsOf (appAssignUserToScreen env db sid uid).2.2 =
        (ob.port_number, orDefault ob.vlan_number env.defBoxVlan) :: mid
          ++ [(screen.port_number, box.vlan_number.getD "")] := by
  have hsid : screen.screen_id = sid := (getScreenById_eq_some h1).2
  set bid := box.box_id with hbid
  set clearSid : Screen → Screen :=
    fun c => if c.screen_id == sid then { c with box_id := none } else c with hcs
  set vD := orDefault ob.vlan_number env.defBoxVlan with hvD
  -- step 2 computes
  have hus : (unassignScreen sid db.screens).2 = db.screens.map clearSid := by
    simp [unassignScreen, h1, h2, hcs]
  have hstep2 : ausStep2 env db sid bid screen =
      ({ db with screens := db.screens.map clearSid },
       [(ob.port_number, vD, env.assignOk ob.port_number vD)]) := by
    rw [ausStep2, h2]
    dsimp only
    rw [if_pos h4]
    rw [hus, h5]
    dsimp only
    rw [if_pos (by simp [h6, h7])]
  -- the post-eviction screen row
  set screen2 : Screen := { screen with box_id := none } with hs2
  have hcls : clearSid screen = screen2 := by
    rw [hcs]
    dsimp only
    rw [if_pos (by simpa using hsid)]
  have hclsid : ∀ x, (clearSid x).screen_id = x.screen_id := by
    intro x
    rw [hcs]
    dsimp only
    split <;> rfl
  have hget2 : getScreenById sid (db.screens.map clearSid) = some screen2 := by
    rw [getScreenById_map hclsid, h1, Option.map_some', hcls]
  rw [appAssignUserToScreen, h1, h3]
  dsimp only
  rw [hstep2]
  dsimp only
  rw [ausStep3]
  dsimp only
  cases hc3 : getScreenByBoxId bid (db.screens.map clearSid) with
  | none =>
    dsimp only
    rw [ausStep4]
    dsimp only
    have hassign : assignBoxToScreen bid sid (db.screens.map clearSid) =
        (some { screen2 with box_id := some bid },
         (db.screens.map clearSid).map
           (fun c => if c.screen_id == sid then { c with box_id := some bid } else c)) := by
      rw [assignBoxToScreen, hget2]
      dsimp only
      rw [if_neg (by simp [hs2]), if_neg (by simp [hs2]), if_neg (by simp [hc3])]
    rw [hassign]
    dsimp only
    rw [if_pos (by refine ⟨by simpa [hs2] using h8, h9, h7⟩)]
    refine ⟨[], rfl, ?_⟩
    simp [callsOf, hs2]
  | some es =>
    dsimp only
    obtain ⟨hmem1, hesbox⟩ := getScreenByBoxId_eq_some hc3
    obtain ⟨x, hxmem, hxe⟩ := List.mem_map.mp hmem1
    have hesid : es.screen_id ≠ sid := by
      intro he
      by_cases hxs : (x.screen_id == sid) = true
      · rw [hcs] at hxe
        dsimp only at hxe
        rw [if_pos hxs] at hxe
        rw [← hxe] at hesbox
        simp at hesbox
      · rw [hcs] at hxe
        dsimp only at hxe
        rw [if_neg hxs] at hxe
        rw [← hxe] at he
        exact hxs (by simpa using he)
    rw [if_pos hesid]
    dsimp only
    set clearBox : Screen → Screen :=
      fun s => if s.box_id == some bid then { s with box_id := none } else s with hcb
    have hany : (db.screens.map clearSid).any (fun s => s.box_id == some bid) = true :=
      List.any_eq_true.mpr ⟨es, hmem1, by simpa using hesbox⟩
    have hub : (unassignBoxFromScreen bid (db.screens.map clearSid)).2 =
        (db.screens.map clearSid).map clearBox := by
      rw [unassignBoxFromScreen]
      rw [if_pos hany]
    rw [hub]
    rw [ausStep4]
    dsimp only
    have hclbid : ∀ x, (clearBox x).screen_id = x.screen_id := by
      intro x
      rw [hcb]
      dsimp only
      split <;> rfl
    have hclb2 : clearBox screen2 = screen2 := by
      rw [hcb]
      dsimp only
      rw [if_neg (by simp [hs2])]
    have hget3 : getScreenById sid ((db.screens.map clearSid).map clearBox) =
        some screen2 := by
      rw [getScreenById_map hclbid, hget2, Option.map_some', hclb2]
    have hnob : getScreenByBoxId bid ((db.screens.map clearSid).map clearBox) = none := by
      rw [hcb]
      exact getScreenByBoxId_clear bid (db.screens.map clearSid)
    have hassign : assignBoxToScreen bid sid ((db.screens.map clearSid).map clearBox) =
        (some { screen2 with box_id := some bid },
         ((db.screens.map clearSid).map clearBox).map
           (fun c => if c.screen_id == sid then { c with box_id := some bid } else c)) := by
      rw [assignBoxToScreen, hget3]
      dsimp only
      rw [if_neg (by simp [hs2]), if_neg (by simp [hs2])]
      rw [if_neg (show ¬((getScreenByBoxId bid
        ((db.screens.map clearSid).map clearBox)).isSome = true) by rw [hnob]; simp)]
    rw [hassign]
    dsimp only
    have hcond4 : (!(({ screen2 with box_id := some bid } : Screen).port_number == "")) = true ∧
        truthy box.vlan_number = true ∧ env.connOpen = true :=
      ⟨by simpa [hs2] using h8, h9, h7⟩
    rw [if_pos hcond4]
    refine ⟨callsOf ((if !(es.port_number == "") ∧ env.connOpen then
        [(es.port_number, env.defScreenVlan,
          env.assignOk es.port_number env.defScreenVlan)] else []) ++
      (if !(box.port_number == "") ∧ env.connOpen then
        [(box.port_number, orDefault box.vlan_number env.defBoxVlan,
          env.assignOk box.port_number (orDefault box.vlan_number env.defBoxVlan))]
      else [])), rfl, ?_⟩
    simp [callsOf, hs2]

/-- Witness for C9: screen 1 (port Gi1/0/10) moves from box 1 (port Gi1/0/1,
VLAN 50) to user u7's box 2 (VLAN 60); the trace is exactly
reset-then-configure. -/
theorem c9_witness :
    ∃ mid,
      (appAssignUserToScreen
        { connOpen := true, connectOk := true, enableOk := true,
          defBoxVlan := "1", defScreenVlan := "101", assignOk := fun _ _ => true }
        { boxes := [{ box_id := 1, box_number := "B1", port_number := "Gi1/0/1",
                      vlan_number := some "50", user_id := none },
                    { box_id := 2, box_number := "B2", port_number := "Gi1/0/2",
                      vlan_number := some "60", user_id := some "u7" }],
          screens := [{ screen_id := 1, screen_number := none,
                        port_number := "Gi1/0/10", vlan_number := some "101",
                        box_id := some 1 }] }
        1 "u7").1 =
        .ok { screen_id := 1, screen_number := none, port_number := "Gi1/0/10",
              vlan_number := some "101", box_id := some 2 } ∧
      callsOf (appAssignUserToScreen
        { connOpen := true, connectOk := true, enableOk := true,
          defBoxVlan := "1", defScreenVlan := "101", assignOk := fun _ _ => true }
        { boxes := [{ box_id := 1, box_number := "B1", port_number := "Gi1/0/1",
                      vlan_number := some "50", user_id := none },
                    { box_id := 2, box_number := "B2", port_number := "Gi1/0/2",
                      vlan_number := some "60", user_id := some "u7" }],
          screens := [{ screen_id := 1, screen_number := none,
                        port_number := "Gi1/0/10", vlan_number := some "101",
                        box_id := some 1 }] }
        1 "u7").2.2 =
        ("Gi1/0/1", orDefault (some "50") "1") :: mid ++ [("Gi1/0/10", (some "60" : Option String).getD "")] :=
  c9_reset_before_configure
    { connOpen := true, connectOk := true, enableOk := true,
      defBoxVlan := "1", defScreenVlan := "101", assignOk := fun _ _ => true }
    { boxes := [{ box_id := 1, box_number := "B1", port_number := "Gi1/0/1",
                  vlan_number := some "50", user_id := none },
                { box_id := 2, box_number := "B2", port_number := "Gi1/0/2",
                  vlan_number := some "60", user_id := some "u7" }],
      screens := [{ screen_id := 1, screen_number := none,
                    port_number := "Gi1/0/10", vlan_number := some "101",
                    box_id := some 1 }] }
    1 "u7"
    { screen_id := 1, screen_number := none, port_number := "Gi1/0/10",
      vlan_number := some "101", box_id := some 1 }
    { box_id := 2, box_number := "B2", port_number := "Gi1/0/2",
      vlan_number := some "60", user_id := some "u7" }
    { box_id := 1, box_number := "B1", port_number := "Gi1/0/1",
      vlan_number := some "50", user_id := none }
    1
    (by decide) (by decide) (by decide) (by decide) (by decide) (by decide)
    (by rfl) (by decide) (by decide)

end S2B
